import Mathlib

/-!
Verification of the crawl-orchestration core of the google-scholar-research
repository: a shallow embedding of `proxy_manager.py` (ProxyManager) and
`fetcher.py` (Fetcher) into Lean 4, together with theorems settling the
specification claims about proxy pool management, fetch retry behaviour,
PDF download, and crawl control.

Conventions of the embedding:
* Timestamps and durations are modelled as `Int` (seconds); `time.time()`
  becomes an explicit `now : Int` parameter threaded through stateful calls.
* Python dicts become association lists `List (String × α)`; dict update is
  in-place replacement of the first matching key.
* Exceptions become `Except Unit α` (`Except.error ()` = `NoProxiesAvailable`
  raised); a Python method that catches the exception pattern-matches.
* External collaborators (free-proxy candidate provider, liveness probe,
  challenge detector, parser, storage, graph sink, transport) are oracle
  parameters collected in environment structures, as in spec section 6.
-/

namespace GScholar

/-- Lookup in an association list (Python `d[k]` / `k in d`). -/
def alistLookup {α : Type} (l : List (String × α)) (k : String) : Option α :=
  match l with
  | [] => none
  | (k', v) :: rest => if k' = k then some v else alistLookup rest k

/-- Dict update `d[k] = v`: replace the first binding of `k`, else append. -/
def alistInsert {α : Type} (l : List (String × α)) (k : String) (v : α) :
    List (String × α) :=
  match l with
  | [] => [(k, v)]
  | (k', v') :: rest =>
    if k' = k then (k, v) :: rest else (k', v') :: alistInsert rest k v

/-- The per-proxy performance counters of `ProxyManager.proxy_performance`
(proxy_manager.py lines 84-96). -/
structure ProxyStats where
  successes : Nat
  failures : Nat
  timeouts : Nat
  captchas : Nat
  connection_errors : Nat
  last_latency : Int
  request_count : Nat
  last_used : Int
  deriving Repr, DecidableEq

/-- Zero-initialised stats, as produced by `_initialize_proxy_stats`. -/
def ProxyStats.init : ProxyStats :=
  { successes := 0, failures := 0, timeouts := 0, captchas := 0
    connection_errors := 0, last_latency := 0, request_count := 0
    last_used := 0 }

/-- `ProxyErrorType` from models.py. -/
inductive ProxyErrorType where
  | CONNECTION
  | TIMEOUT
  | FORBIDDEN
  | OTHER
  | CAPTCHA
  deriving Repr, DecidableEq

/-- The mutable state of a `ProxyManager` (proxy_manager.py lines 16-58).
`blacklist_file` models the persisted JSON blacklist file contents;
`_save_blacklist` copies `blacklist` into it and `_load_blacklist` reads
and prunes it. -/
structure ProxyManager where
  proxy_list : List String
  blacklist : List (String × Int)
  blacklist_file : List (String × Int)
  refresh_interval : Int
  blacklist_duration : Int
  last_refresh : Int
  num_proxies : Nat
  current_proxy : Option String
  proxy_performance : List (String × ProxyStats)
  force_direct_connection : Bool
  debug_mode : Bool
  deriving Repr, DecidableEq

/-- The blacklist-membership test used throughout proxy_manager.py:
`proxy in self.blacklist and time.time() - float(ts) < self.blacklist_duration`. -/
def ProxyManager.isBlacklistedNow (st : ProxyManager) (now : Int) (p : String) : Bool :=
  match alistLookup st.blacklist p with
  | some ts => now - ts < st.blacklist_duration
  | none => false

/-- `_load_blacklist` (proxy_manager.py lines 60-74): read the persisted
blacklist and drop entries older than `blacklist_duration`. -/
def ProxyManager.load_blacklist (st : ProxyManager) (now : Int) : ProxyManager :=
  { st with blacklist :=
      st.blacklist_file.filter (fun pt => now - pt.2 < st.blacklist_duration) }

/-- `_save_blacklist` (proxy_manager.py lines 76-82): persist the blacklist. -/
def ProxyManager.save_blacklist (st : ProxyManager) : ProxyManager :=
  { st with blacklist_file := st.blacklist }

/-- `_initialize_proxy_stats` (proxy_manager.py lines 84-96). -/
def ProxyManager.initialize_proxy_stats (st : ProxyManager) (p : String) : ProxyManager :=
  match alistLookup st.proxy_performance p with
  | some _ => st
  | none =>
    { st with proxy_performance := alistInsert st.proxy_performance p ProxyStats.init }

/-- `_update_proxy_usage_stats` (proxy_manager.py lines 207-212). -/
def ProxyManager.update_proxy_usage_stats (st : ProxyManager) (now : Int) (p : String) :
    ProxyManager :=
  if p ≠ "" then
    let st := st.initialize_proxy_stats p
    match alistLookup st.proxy_performance p with
    | some s =>
      let s' := { s with last_used := now, request_count := s.request_count + 1 }
      { st with proxy_performance := alistInsert st.proxy_performance p s' }
    | none => st
  else st

/-- `mark_proxy_failure` (proxy_manager.py lines 307-318): increments the
aggregate failure counter and the counter matching the error type, only
when the proxy is truthy and already has performance stats.  It touches
nothing but `proxy_performance`. -/
def ProxyManager.mark_proxy_failure (st : ProxyManager) (proxy : String)
    (error_type : ProxyErrorType) : ProxyManager :=
  if proxy ≠ "" then
    match alistLookup st.proxy_performance proxy with
    | some s =>
      let s := { s with failures := s.failures + 1 }
      let s :=
        match error_type with
        | ProxyErrorType.TIMEOUT => { s with timeouts := s.timeouts + 1 }
        | ProxyErrorType.CAPTCHA => { s with captchas := s.captchas + 1 }
        | ProxyErrorType.CONNECTION =>
          { s with connection_errors := s.connection_errors + 1 }
        | _ => s
      { st with proxy_performance := alistInsert st.proxy_performance proxy s }
    | none => st
  else st

/-- `mark_proxy_success` (proxy_manager.py lines 320-323). -/
def ProxyManager.mark_proxy_success (st : ProxyManager) (proxy : String) : ProxyManager :=
  if proxy ≠ "" then
    match alistLookup st.proxy_performance proxy with
    | some s =>
      let s' := { s with successes := s.successes + 1 }
      { st with proxy_performance := alistInsert st.proxy_performance proxy s' }
    | none => st
  else st

/-- `remove_proxy` (proxy_manager.py lines 294-305): drop the proxy from the
working list, record it in the blacklist with the current timestamp, persist
the blacklist, and clear `current_proxy` if it was the removed proxy. -/
def ProxyManager.remove_proxy (st : ProxyManager) (now : Int) (proxy : String) :
    ProxyManager :=
  let st :=
    if proxy ∈ st.proxy_list then { st with proxy_list := st.proxy_list.erase proxy }
    else st
  let st := { st with blacklist := alistInsert st.blacklist proxy now }
  let st := st.save_blacklist
  if st.current_proxy = some proxy then { st with current_proxy := none } else st

/-- Inputs of one `refresh` round: the raw candidate list returned by the
external FreeProxy provider, and the outcome/latency of the concurrent
liveness probes of `_test_proxy` (CONNECT tunnel + GET within the timeout). -/
structure RefreshEnv where
  raw_proxies : List String
  probe_ok : String → Bool
  probe_latency : String → Int

/-- `_test_proxy` (proxy_manager.py lines 98-156): `none` if the proxy is
blacklisted and within the blacklist duration; otherwise initialise its
stats, probe it, record the latency on success and return the proxy. -/
def test_proxy (st : ProxyManager) (now : Int) (env : RefreshEnv) (p : String) :
    ProxyManager × Option String :=
  if st.isBlacklistedNow now p then (st, none)
  else
    let st := st.initialize_proxy_stats p
    if env.probe_ok p then
      let st :=
        match alistLookup st.proxy_performance p with
        | some s =>
          let s' := { s with last_latency := env.probe_latency p }
          { st with proxy_performance := alistInsert st.proxy_performance p s' }
        | none => st
      (st, some p)
    else (st, none)

/-- The `asyncio.gather` over `_test_proxy` tasks (proxy_manager.py lines
185-188), sequentialised in list order: thread the manager state through the
probes and collect the surviving proxies. -/
def gather_tests (st : ProxyManager) (now : Int) (env : RefreshEnv) :
    List String → ProxyManager × List String
  | [] => (st, [])
  | p :: rest =>
    let (st, r) := test_proxy st now env p
    let (st, rs) := gather_tests st now env rest
    (st, match r with | some q => q :: rs | none => rs)

/-- `get_working_proxies` (proxy_manager.py lines 158-201).  `Except.error ()`
models a raised `NoProxiesAvailable`; note the state is already mutated when
the "no working proxies" error is raised, exactly as in the source. -/
def get_working_proxies (st : ProxyManager) (now : Int) (env : RefreshEnv) :
    ProxyManager × Except Unit (List String) :=
  if st.force_direct_connection then
    ({ st with proxy_list := [], last_refresh := now }, Except.ok [])
  else if st.debug_mode then
    ({ st with proxy_list := [], last_refresh := now }, Except.ok [])
  else if now - st.last_refresh < st.refresh_interval ∧ st.proxy_list ≠ [] then
    (st, Except.ok st.proxy_list)
  else if env.raw_proxies.isEmpty then (st, Except.error ())
  else
    let (st, working) := gather_tests st now env env.raw_proxies
    let new_list := working.take st.num_proxies
    let st := { st with proxy_list := new_list, last_refresh := now }
    let st := new_list.foldl (fun s p => s.initialize_proxy_stats p) st
    if new_list.isEmpty then (st, Except.error ()) else (st, Except.ok new_list)

/-- `refresh_proxies` (proxy_manager.py lines 203-205). -/
def refresh_proxies (st : ProxyManager) (now : Int) (env : RefreshEnv) :
    ProxyManager × Except Unit Unit :=
  match get_working_proxies st now env with
  | (st, Except.ok _) => (st, Except.ok ())
  | (st, Except.error e) => (st, Except.error e)

/-- Inputs of one `get_proxy` call: the environments handed to the (up to
three) `refresh_proxies` calls it may make, in call order, and the index
drawn by `random.choice` over the available proxies. -/
structure GetProxyEnv where
  refresh_envs : Nat → RefreshEnv
  pick : Nat

/-- The non-blacklisted subset of the pool computed at proxy-selection time
(proxy_manager.py lines 260-264 and 270-274). -/
def available_of (st : ProxyManager) (now : Int) : List String :=
  st.proxy_list.filter (fun p => ¬ st.isBlacklistedNow now p)

/-- `random.choice(available_proxies)` followed by the `current_proxy`
assignment and usage-stat update (proxy_manager.py lines 280-284). -/
def choose_proxy (st : ProxyManager) (now : Int) (env : GetProxyEnv)
    (available : List String) : ProxyManager × Except Unit (Option String) :=
  let p := available.getD (env.pick % available.length) ""
  let st := { st with current_proxy := some p }
  let st := st.update_proxy_usage_stats now p
  (st, Except.ok (some p))

/-- The tail of `get_proxy`'s try block (proxy_manager.py lines 259-288):
select among non-blacklisted pool members, refreshing once if all pool
members are blacklisted.  `k` is the index of the next refresh call. -/
def get_proxy_select (st : ProxyManager) (now : Int) (env : GetProxyEnv) (k : Nat) :
    ProxyManager × Except Unit (Option String) :=
  if st.proxy_list ≠ [] then
    let available := available_of st now
    if available = [] then
      match refresh_proxies st now (env.refresh_envs k) with
      | (st, Except.error e) => (st, Except.error e)
      | (st, Except.ok ()) =>
        let available := available_of st now
        if available = [] then ({ st with current_proxy := none }, Except.error ())
        else choose_proxy st now env available
    else choose_proxy st now env available
  else ({ st with current_proxy := none }, Except.ok none)

/-- The try block of `get_proxy` (proxy_manager.py lines 243-288): on an
empty pool, one interval-gated refresh, then one forced refresh, then
`NoProxiesAvailable`; otherwise proceed to selection.  A raised
`NoProxiesAvailable` from `refresh_proxies` propagates out of the block. -/
def get_proxy_try (st : ProxyManager) (now : Int) (env : GetProxyEnv) :
    ProxyManager × Except Unit (Option String) :=
  let refreshed : ProxyManager × Nat × Except Unit Unit :=
    if st.proxy_list = [] then
      let first : ProxyManager × Nat × Except Unit Unit :=
        if now - st.last_refresh > st.refresh_interval then
          let (st, r) := refresh_proxies st now (env.refresh_envs 0)
          (st, 1, r)
        else (st, 0, Except.ok ())
      match first with
      | (st, k, Except.error e) => (st, k, Except.error e)
      | (st, k, Except.ok ()) =>
        if st.proxy_list = [] then
          let (st, r) := refresh_proxies st now (env.refresh_envs k)
          (st, k + 1, r)
        else (st, k, Except.ok ())
    else (st, 0, Except.ok ())
  match refreshed with
  | (st, _, Except.error e) => (st, Except.error e)
  | (st, k, Except.ok ()) =>
    if st.proxy_list = [] then ({ st with current_proxy := none }, Except.error ())
    else get_proxy_select st now env k

/-- `get_proxy` (proxy_manager.py lines 214-292).  The `except
NoProxiesAvailable` handler at the end of the method converts any raised
error into `none` after clearing `current_proxy`, so the method as a whole
never raises: its result type carries no error case. -/
def get_proxy (st : ProxyManager) (now : Int) (env : GetProxyEnv) :
    ProxyManager × Option String :=
  if st.force_direct_connection then (st, none)
  else if st.debug_mode then (st, none)
  else
    let run := fun (st : ProxyManager) =>
      match get_proxy_try st now env with
      | (st, Except.ok r) => (st, r)
      | (st, Except.error _) => ({ st with current_proxy := none }, none)
    match st.current_proxy with
    | some cp =>
      if st.isBlacklistedNow now cp then run { st with current_proxy := none }
      else (st.update_proxy_usage_stats now cp, some cp)
    | none => run st

/-! ### Association-list lemmas -/

theorem alistLookup_insert_self {α : Type} (l : List (String × α)) (k : String) (v : α) :
    alistLookup (alistInsert l k v) k = some v := by
  induction l with
  | nil => simp [alistInsert, alistLookup]
  | cons hd tl ih =>
    obtain ⟨k', v'⟩ := hd
    by_cases h : k' = k
    · simp [alistInsert, alistLookup, h]
    · simp [alistInsert, alistLookup, h, ih]

theorem mem_keys_of_lookup_isSome {α : Type} {l : List (String × α)} {k : String}
    (h : (alistLookup l k).isSome) : k ∈ l.map Prod.fst := by
  induction l with
  | nil => simp [alistLookup] at h
  | cons hd tl ih =>
    obtain ⟨k', v'⟩ := hd
    by_cases hk : k' = k
    · simp [hk]
    · simp only [alistLookup, if_neg hk] at h
      simpa using Or.inr (ih h)

theorem lookup_eq_none_of_not_mem_keys {α : Type} {l : List (String × α)} {k : String}
    (h : k ∉ l.map Prod.fst) : alistLookup l k = none := by
  cases hl : alistLookup l k with
  | none => rfl
  | some v => exact absurd (mem_keys_of_lookup_isSome (by simp [hl])) h

theorem keys_filter_subset {α : Type} (pred : String × α → Bool) (l : List (String × α)) :
    ∀ k, k ∈ (l.filter pred).map Prod.fst → k ∈ l.map Prod.fst := by
  intro k hk
  simp only [List.mem_map] at hk ⊢
  obtain ⟨x, hx, hfst⟩ := hk
  exact ⟨x, (List.mem_filter.mp hx).1, hfst⟩

theorem alistLookup_filter {α : Type} {l : List (String × α)} {k : String}
    (pred : String × α → Bool) (hnd : (l.map Prod.fst).Nodup) :
    alistLookup (l.filter pred) k
      = (alistLookup l k).bind (fun v => if pred (k, v) then some v else none) := by
  induction l with
  | nil => simp [alistLookup]
  | cons hd tl ih =>
    obtain ⟨k', v'⟩ := hd
    simp only [List.map_cons, List.nodup_cons] at hnd
    by_cases hk : k' = k
    · subst hk
      by_cases hp : pred (k', v')
      · simp [alistLookup, List.filter_cons, hp]
      · have : alistLookup (tl.filter pred) k' = none := by
          apply lookup_eq_none_of_not_mem_keys
          intro hmem
          exact hnd.1 (keys_filter_subset pred tl k' hmem)
        simp [alistLookup, List.filter_cons, hp, this]
    · by_cases hp : pred (k', v')
      · simp [alistLookup, List.filter_cons, hp, hk, ih hnd.2]
      · simp [alistLookup, List.filter_cons, hp, hk, ih hnd.2]

theorem mem_keys_alistInsert {α : Type} {l : List (String × α)} {k a : String} {v : α}
    (h : a ∈ (alistInsert l k v).map Prod.fst) : a ∈ l.map Prod.fst ∨ a = k := by
  induction l with
  | nil => simpa [alistInsert] using h
  | cons hd tl ih =>
    obtain ⟨k', v'⟩ := hd
    by_cases hk : k' = k
    · simp only [alistInsert, if_pos hk, List.map_cons, List.mem_cons] at h
      rcases h with h | h
      · exact Or.inr h
      · exact Or.inl (by simp [h])
    · simp only [alistInsert, if_neg hk, List.map_cons, List.mem_cons] at h
      rcases h with h | h
      · exact Or.inl (by simp [h])
      · rcases ih h with h' | h'
        · exact Or.inl (by simp [h'])
        · exact Or.inr h'

theorem keys_alistInsert_nodup {α : Type} {l : List (String × α)} (k : String) (v : α)
    (hnd : (l.map Prod.fst).Nodup) : ((alistInsert l k v).map Prod.fst).Nodup := by
  induction l with
  | nil => simp [alistInsert]
  | cons hd tl ih =>
    obtain ⟨k', v'⟩ := hd
    simp only [List.map_cons, List.nodup_cons] at hnd
    by_cases hk : k' = k
    · subst hk
      simpa [alistInsert] using hnd
    · simp only [alistInsert, if_neg hk, List.map_cons, List.nodup_cons]
      refine ⟨?_, ih hnd.2⟩
      intro hmem
      rcases mem_keys_alistInsert hmem with h | h
      · exact hnd.1 h
      · exact hk h

/-! ### Claim C8: blacklist TTL across persist + reload -/

/-- A manager with the constructor defaults of `ProxyManager.__init__`
(timeout aside, which the embedding folds into the probe oracle). -/
def default_manager : ProxyManager :=
  { proxy_list := [], blacklist := [], blacklist_file := []
    refresh_interval := 300, blacklist_duration := 600, last_refresh := 0
    num_proxies := 20, current_proxy := none, proxy_performance := []
    force_direct_connection := false, debug_mode := false }

/-- C8 (confirmed): an address evicted (blacklisted and persisted) at time
`T` by `remove_proxy` is still present in the blacklist after a
reload/prune (`_load_blacklist`) at any time before `T + blacklistDuration`,
and is pruned by a reload at any time from `T + blacklistDuration` on. -/
theorem blacklist_ttl (st : ProxyManager) (p : String) (T now : Int)
    (hnd : (st.blacklist.map Prod.fst).Nodup) :
    (alistLookup (((st.remove_proxy T p).load_blacklist now).blacklist) p).isSome
      = decide (now < T + st.blacklist_duration) := by
  have hfile : (st.remove_proxy T p).blacklist_file = alistInsert st.blacklist p T := by
    simp only [ProxyManager.remove_proxy, ProxyManager.save_blacklist]
    split <;> split <;> rfl
  have hdur : (st.remove_proxy T p).blacklist_duration = st.blacklist_duration := by
    simp only [ProxyManager.remove_proxy, ProxyManager.save_blacklist]
    split <;> split <;> rfl
  simp only [ProxyManager.load_blacklist, hfile, hdur]
  rw [alistLookup_filter _ (keys_alistInsert_nodup p T hnd), alistLookup_insert_self]
  by_cases h : now - T < st.blacklist_duration
  · have h2 : now < T + st.blacklist_duration := by omega
    simp [h, h2]
  · have h2 : ¬ now < T + st.blacklist_duration := by omega
    simp [h, h2]

/-- Witness for C8 at a concrete state: an address blacklisted at time 100
with duration 600 is present on reload at time 400 and absent at time 700. -/
theorem blacklist_ttl_witness :
    ((default_manager.blacklist.map Prod.fst).Nodup
      ∧ (alistLookup (((default_manager.remove_proxy 100 "1.2.3.4:80").load_blacklist 400).blacklist)
          "1.2.3.4:80").isSome = true)
    ∧ (alistLookup (((default_manager.remove_proxy 100 "1.2.3.4:80").load_blacklist 700).blacklist)
        "1.2.3.4:80").isSome = false := by
  refine ⟨⟨by decide, ?_⟩, ?_⟩
  · rw [blacklist_ttl default_manager "1.2.3.4:80" 100 400 (by decide)]
    decide
  · rw [blacklist_ttl default_manager "1.2.3.4:80" 100 700 (by decide)]
    decide

/-! ### Claim C3: what reportFailure actually does -/

/-- A manager holding one active proxy with initialised stats. -/
def one_proxy_manager : ProxyManager :=
  { default_manager with
    proxy_list := ["1.1.1.1:80"]
    proxy_performance := [("1.1.1.1:80", ProxyStats.init)] }

/-- C3 (counterexample): a single `mark_proxy_failure` call on an active
proxy increments its counters but does NOT move the address from the active
pool to the blacklist and does NOT persist anything — contradicting the
claim that one reportFailure call blacklists and persists. -/
theorem mark_proxy_failure_does_not_blacklist :
    (one_proxy_manager.mark_proxy_failure "1.1.1.1:80" ProxyErrorType.CONNECTION).blacklist = []
    ∧ (one_proxy_manager.mark_proxy_failure "1.1.1.1:80" ProxyErrorType.CONNECTION).blacklist_file = []
    ∧ (one_proxy_manager.mark_proxy_failure "1.1.1.1:80" ProxyErrorType.CONNECTION).proxy_list
        = ["1.1.1.1:80"]
    ∧ alistLookup (one_proxy_manager.mark_proxy_failure "1.1.1.1:80"
        ProxyErrorType.CONNECTION).proxy_performance "1.1.1.1:80"
        = some { ProxyStats.init with failures := 1, connection_errors := 1 } := by
  decide

/-- The per-kind counter `mark_proxy_failure` bumps: timeouts for TIMEOUT,
captchas for CAPTCHA, connection_errors for CONNECTION; FORBIDDEN and OTHER
only touch the aggregate `failures` counter (the `else: pass` branch). -/
def matched_counter : ProxyErrorType → ProxyStats → Nat
  | ProxyErrorType.TIMEOUT => ProxyStats.timeouts
  | ProxyErrorType.CAPTCHA => ProxyStats.captchas
  | ProxyErrorType.CONNECTION => ProxyStats.connection_errors
  | ProxyErrorType.OTHER => ProxyStats.failures
  | ProxyErrorType.FORBIDDEN => ProxyStats.failures

/-- C3 (amended): `mark_proxy_failure(address, kind)` only increments the
aggregate failure counter and the counter matching the kind (and only for an
address with initialised stats); it leaves the pool, the blacklist, the
persisted blacklist and the current binding untouched.  The move from the
active pool to the blacklist, with eviction timestamp and persistence, is
performed by the separate `remove_proxy` operation. -/
theorem mark_failure_counts_remove_blacklists (st : ProxyManager) (p : String)
    (k : ProxyErrorType) (now : Int) (s : ProxyStats)
    (hp : p ≠ "") (hs : alistLookup st.proxy_performance p = some s) :
    (st.mark_proxy_failure p k).blacklist = st.blacklist
    ∧ (st.mark_proxy_failure p k).blacklist_file = st.blacklist_file
    ∧ (st.mark_proxy_failure p k).proxy_list = st.proxy_list
    ∧ (st.mark_proxy_failure p k).current_proxy = st.current_proxy
    ∧ (alistLookup (st.mark_proxy_failure p k).proxy_performance p).map ProxyStats.failures
        = some (s.failures + 1)
    ∧ (alistLookup (st.mark_proxy_failure p k).proxy_performance p).map (matched_counter k)
        = some (matched_counter k s + 1)
    ∧ (st.remove_proxy now p).proxy_list = st.proxy_list.erase p
    ∧ alistLookup (st.remove_proxy now p).blacklist p = some now
    ∧ (st.remove_proxy now p).blacklist_file = (st.remove_proxy now p).blacklist := by
  refine ⟨?_, ?_, ?_, ?_, ?_, ?_, ?_, ?_, ?_⟩
  · simp only [ProxyManager.mark_proxy_failure, if_pos hp, hs]
  · simp only [ProxyManager.mark_proxy_failure, if_pos hp, hs]
  · simp only [ProxyManager.mark_proxy_failure, if_pos hp, hs]
  · simp only [ProxyManager.mark_proxy_failure, if_pos hp, hs]
  · simp only [ProxyManager.mark_proxy_failure, if_pos hp, hs]
    cases k <;> simp [alistLookup_insert_self, matched_counter]
  · simp only [ProxyManager.mark_proxy_failure, if_pos hp, hs]
    cases k <;> simp [alistLookup_insert_self, matched_counter]
  · simp only [ProxyManager.remove_proxy, ProxyManager.save_blacklist]
    by_cases hmem : p ∈ st.proxy_list
    · simp only [if_pos hmem]
      split <;> rfl
    · simp only [if_neg hmem, List.erase_of_not_mem hmem]
      split <;> rfl
  · simp only [ProxyManager.remove_proxy, ProxyManager.save_blacklist]
    split <;> split <;> simp [alistLookup_insert_self]
  · simp only [ProxyManager.remove_proxy, ProxyManager.save_blacklist]
    split <;> split <;> rfl

/-- Witness for the amended C3 at a concrete input. -/
theorem mark_failure_counts_remove_blacklists_witness :
    (one_proxy_manager.mark_proxy_failure "1.1.1.1:80" ProxyErrorType.TIMEOUT).blacklist = []
    ∧ (one_proxy_manager.mark_proxy_failure "1.1.1.1:80" ProxyErrorType.TIMEOUT).blacklist_file = []
    ∧ (one_proxy_manager.mark_proxy_failure "1.1.1.1:80" ProxyErrorType.TIMEOUT).proxy_list
        = ["1.1.1.1:80"]
    ∧ (one_proxy_manager.mark_proxy_failure "1.1.1.1:80" ProxyErrorType.TIMEOUT).current_proxy
        = none
    ∧ (alistLookup (one_proxy_manager.mark_proxy_failure "1.1.1.1:80"
        ProxyErrorType.TIMEOUT).proxy_performance "1.1.1.1:80").map ProxyStats.failures
        = some 1
    ∧ (alistLookup (one_proxy_manager.mark_proxy_failure "1.1.1.1:80"
        ProxyErrorType.TIMEOUT).proxy_performance "1.1.1.1:80").map
          (matched_counter ProxyErrorType.TIMEOUT) = some 1
    ∧ (one_proxy_manager.remove_proxy 42 "1.1.1.1:80").proxy_list
        = List.erase ["1.1.1.1:80"] "1.1.1.1:80"
    ∧ alistLookup (one_proxy_manager.remove_proxy 42 "1.1.1.1:80").blacklist "1.1.1.1:80"
        = some 42
    ∧ (one_proxy_manager.remove_proxy 42 "1.1.1.1:80").blacklist_file
        = (one_proxy_manager.remove_proxy 42 "1.1.1.1:80").blacklist := by
  exact mark_failure_counts_remove_blacklists one_proxy_manager "1.1.1.1:80"
    ProxyErrorType.TIMEOUT 42 ProxyStats.init (by decide) (by decide)

/-! ### Frame lemmas: which fields each operation can touch -/

/-- `st'` differs from `st` at most in the performance map. -/
def perf_only (st st' : ProxyManager) : Prop :=
  st'.proxy_list = st.proxy_list ∧ st'.blacklist = st.blacklist
  ∧ st'.blacklist_file = st.blacklist_file ∧ st'.refresh_interval = st.refresh_interval
  ∧ st'.blacklist_duration = st.blacklist_duration ∧ st'.last_refresh = st.last_refresh
  ∧ st'.num_proxies = st.num_proxies ∧ st'.current_proxy = st.current_proxy
  ∧ st'.force_direct_connection = st.force_direct_connection
  ∧ st'.debug_mode = st.debug_mode

theorem perf_only_refl (st : ProxyManager) : perf_only st st := by
  simp [perf_only]

theorem perf_only_trans {a b c : ProxyManager} (h1 : perf_only a b) (h2 : perf_only b c) :
    perf_only a c := by
  obtain ⟨x1, x2, x3, x4, x5, x6, x7, x8, x9, x10⟩ := h1
  obtain ⟨y1, y2, y3, y4, y5, y6, y7, y8, y9, y10⟩ := h2
  exact ⟨y1.trans x1, y2.trans x2, y3.trans x3, y4.trans x4, y5.trans x5,
    y6.trans x6, y7.trans x7, y8.trans x8, y9.trans x9, y10.trans x10⟩

theorem initialize_proxy_stats_perf_only (st : ProxyManager) (p : String) :
    perf_only st (st.initialize_proxy_stats p) := by
  unfold ProxyManager.initialize_proxy_stats
  split <;> simp [perf_only]

theorem update_usage_perf_only (st : ProxyManager) (now : Int) (p : String) :
    perf_only st (st.update_proxy_usage_stats now p) := by
  unfold ProxyManager.update_proxy_usage_stats
  split
  · refine perf_only_trans (initialize_proxy_stats_perf_only st p) ?_
    dsimp only
    split <;> simp [perf_only]
  · exact perf_only_refl st

theorem mark_proxy_failure_perf_only (st : ProxyManager) (p : String) (k : ProxyErrorType) :
    perf_only st (st.mark_proxy_failure p k) := by
  unfold ProxyManager.mark_proxy_failure
  split
  · split <;> simp [perf_only]
  · exact perf_only_refl st

theorem mark_proxy_success_perf_only (st : ProxyManager) (p : String) :
    perf_only st (st.mark_proxy_success p) := by
  unfold ProxyManager.mark_proxy_success
  split
  · split <;> simp [perf_only]
  · exact perf_only_refl st

theorem test_proxy_perf_only (st : ProxyManager) (now : Int) (env : RefreshEnv) (p : String) :
    perf_only st (test_proxy st now env p).1 := by
  unfold test_proxy
  split
  · exact perf_only_refl st
  · split
    · refine perf_only_trans (initialize_proxy_stats_perf_only st p) ?_
      dsimp only
      split <;> simp [perf_only]
    · exact initialize_proxy_stats_perf_only st p

/-- Blacklist membership only depends on the blacklist and its duration. -/
theorem isBlacklistedNow_congr {st st' : ProxyManager} (now : Int) (p : String)
    (hb : st'.blacklist = st.blacklist)
    (hd : st'.blacklist_duration = st.blacklist_duration) :
    st'.isBlacklistedNow now p = st.isBlacklistedNow now p := by
  unfold ProxyManager.isBlacklistedNow
  rw [hb, hd]

theorem gather_tests_spec (now : Int) (env : RefreshEnv) :
    ∀ (l : List String) (st : ProxyManager),
      perf_only st (gather_tests st now env l).1
      ∧ ∀ q ∈ (gather_tests st now env l).2, st.isBlacklistedNow now q = false := by
  intro l
  induction l with
  | nil => intro st; exact ⟨perf_only_refl st, by simp [gather_tests]⟩
  | cons p rest ih =>
    intro st
    have htest := test_proxy_perf_only st now env p
    obtain ⟨hrest, hmem⟩ := ih (test_proxy st now env p).1
    have hcongr : ∀ q, (test_proxy st now env p).1.isBlacklistedNow now q
        = st.isBlacklistedNow now q :=
      fun q => isBlacklistedNow_congr now q htest.2.1 htest.2.2.2.2.1
    constructor
    · show perf_only st (gather_tests st now env (p :: rest)).1
      have : (gather_tests st now env (p :: rest)).1
          = (gather_tests (test_proxy st now env p).1 now env rest).1 := by
        simp only [gather_tests]
      rw [this]
      exact perf_only_trans htest hrest
    · intro q hq
      have hsplit : (gather_tests st now env (p :: rest)).2
          = match (test_proxy st now env p).2 with
            | some x => x :: (gather_tests (test_proxy st now env p).1 now env rest).2
            | none => (gather_tests (test_proxy st now env p).1 now env rest).2 := by
        simp only [gather_tests]
      rw [hsplit] at hq
      cases hx : (test_proxy st now env p).2 with
      | none =>
        rw [hx] at hq
        rw [← hcongr q]
        exact hmem q hq
      | some x =>
        have hxp : x = p ∧ st.isBlacklistedNow now p = false := by
          unfold test_proxy at hx
          cases hbl : st.isBlacklistedNow now p with
          | true => simp [hbl] at hx
          | false =>
            refine ⟨?_, rfl⟩
            cases hpo : env.probe_ok p with
            | true => simp [hbl, hpo] at hx; simp [hx]
            | false => simp [hbl, hpo] at hx
        rw [hx] at hq
        rcases List.mem_cons.mp hq with rfl | hin
        · rw [hxp.1]
          exact hxp.2
        · rw [← hcongr q]
          exact hmem q hin

theorem foldl_init_perf_only (l : List String) (st : ProxyManager) :
    perf_only st (l.foldl (fun s p => s.initialize_proxy_stats p) st) := by
  induction l generalizing st with
  | nil => exact perf_only_refl st
  | cons p rest ih =>
    exact perf_only_trans (initialize_proxy_stats_perf_only st p)
      (by simpa using ih (st.initialize_proxy_stats p))

/-- Fields `get_working_proxies` can never touch: everything except
`proxy_list`, `last_refresh` and the performance map. -/
theorem get_working_proxies_frame (st : ProxyManager) (now : Int) (env : RefreshEnv) :
    (get_working_proxies st now env).1.blacklist = st.blacklist
    ∧ (get_working_proxies st now env).1.blacklist_file = st.blacklist_file
    ∧ (get_working_proxies st now env).1.blacklist_duration = st.blacklist_duration
    ∧ (get_working_proxies st now env).1.num_proxies = st.num_proxies
    ∧ (get_working_proxies st now env).1.current_proxy = st.current_proxy
    ∧ (get_working_proxies st now env).1.force_direct_connection = st.force_direct_connection
    ∧ (get_working_proxies st now env).1.debug_mode = st.debug_mode
    ∧ (get_working_proxies st now env).1.refresh_interval = st.refresh_interval := by
  unfold get_working_proxies
  split
  · simp
  split
  · simp
  split
  · simp
  split
  · simp
  · rcases hgt : gather_tests st now env env.raw_proxies with ⟨mid, ws⟩
    have hg : perf_only st mid := by
      have := (gather_tests_spec now env env.raw_proxies st).1
      rwa [hgt] at this
    simp only [hgt]
    obtain ⟨g1, g2, g3, g4, g5, g6, g7, g8, g9, g10⟩ := hg
    have hfold := foldl_init_perf_only (ws.take mid.num_proxies)
      { mid with proxy_list := ws.take mid.num_proxies, last_refresh := now }
    obtain ⟨f1, f2, f3, f4, f5, f6, f7, f8, f9, f10⟩ := hfold
    split <;>
      refine ⟨?_, ?_, ?_, ?_, ?_, ?_, ?_, ?_⟩ <;> simp_all

theorem refresh_proxies_fst (st : ProxyManager) (now : Int) (env : RefreshEnv) :
    (refresh_proxies st now env).1 = (get_working_proxies st now env).1 := by
  unfold refresh_proxies
  rcases h : get_working_proxies st now env with ⟨st', r⟩
  cases r <;> simp

/-- `refresh_proxies` never touches the blacklist or its duration. -/
theorem refresh_proxies_bl (st : ProxyManager) (now : Int) (env : RefreshEnv) :
    (refresh_proxies st now env).1.blacklist = st.blacklist
    ∧ (refresh_proxies st now env).1.blacklist_duration = st.blacklist_duration := by
  rw [refresh_proxies_fst]
  exact ⟨(get_working_proxies_frame st now env).1,
    (get_working_proxies_frame st now env).2.2.1⟩

/-! ### Claim C7: the pool invariant after refresh -/

def c7_manager : ProxyManager :=
  { default_manager with
    blacklist := [("1.1.1.1:80", 0)]
    blacklist_file := [("1.1.1.1:80", 0)]
    blacklist_duration := 10 }

def c7_refresh_env : RefreshEnv :=
  { raw_proxies := ["1.1.1.1:80"], probe_ok := fun _ => true
    probe_latency := fun _ => 1 }

/-- C7 (counterexample): a refresh at time 100 re-admits an address whose
blacklist entry (written at time 0, duration 10) has expired — the entry is
still in the blacklist map because `get_working_proxies` never prunes it, so
the address is simultaneously in the active pool and in the blacklist map,
and the pool was genuinely replaced by this refresh. -/
theorem refresh_pool_blacklist_overlap :
    "1.1.1.1:80" ∈ (get_working_proxies c7_manager 100 c7_refresh_env).1.proxy_list
    ∧ (alistLookup (get_working_proxies c7_manager 100 c7_refresh_env).1.blacklist
        "1.1.1.1:80").isSome = true
    ∧ (get_working_proxies c7_manager 100 c7_refresh_env).1.proxy_list
        ≠ c7_manager.proxy_list := by
  decide

/-- After any `get_working_proxies` call, either the pool was returned
unchanged (cached / raw-provider-empty paths), or the new pool has at most
`numProxies` members none of which has an unexpired blacklist entry at
refresh time. -/
theorem refresh_pool_cases (st : ProxyManager) (now : Int)
    (env : RefreshEnv) :
    (get_working_proxies st now env).1.proxy_list = st.proxy_list
    ∨ ((get_working_proxies st now env).1.proxy_list.length ≤ st.num_proxies
       ∧ ∀ p ∈ (get_working_proxies st now env).1.proxy_list,
           (get_working_proxies st now env).1.isBlacklistedNow now p = false) := by
  have hbl := (get_working_proxies_frame st now env).1
  have hbd := (get_working_proxies_frame st now env).2.2.1
  have hcongr : ∀ p, (get_working_proxies st now env).1.isBlacklistedNow now p
      = st.isBlacklistedNow now p := fun p => isBlacklistedNow_congr now p hbl hbd
  simp only [hcongr]
  unfold get_working_proxies
  split
  · exact Or.inr ⟨by simp, by simp⟩
  split
  · exact Or.inr ⟨by simp, by simp⟩
  split
  · exact Or.inl rfl
  split
  · exact Or.inl rfl
  · rcases hgt : gather_tests st now env env.raw_proxies with ⟨mid, ws⟩
    have hspec := gather_tests_spec now env env.raw_proxies st
    rw [hgt] at hspec
    obtain ⟨hg, hmem⟩ := hspec
    have hfold := foldl_init_perf_only (ws.take mid.num_proxies)
      { mid with proxy_list := ws.take mid.num_proxies, last_refresh := now }
    have hnum : mid.num_proxies = st.num_proxies := hg.2.2.2.2.2.2.1
    simp only [hgt]
    refine Or.inr ⟨?_, ?_⟩
    · split <;>
      · rw [hfold.1]
        rw [List.length_take]
        omega
    · split <;>
      · intro p hp
        rw [hfold.1] at hp
        exact hmem p (List.take_subset _ _ hp)

/-! ### Claim C10: get_proxy never hands out an unexpired-blacklisted proxy -/

/-- C7 (amended): after any refresh, either the pool was returned
unchanged (cached / raw-provider-empty paths), or the replaced pool has at
most `numProxies` members none of which has an UNEXPIRED blacklist entry at
refresh time.  (An address with an expired, not-yet-pruned blacklist entry
may legitimately sit in both the pool and the blacklist map, as the
counterexample shows.) -/
theorem refresh_pool_bound_and_no_unexpired (st : ProxyManager) (now : Int)
    (env : RefreshEnv) :
    (get_working_proxies st now env).1.proxy_list = st.proxy_list
    ∨ ((get_working_proxies st now env).1.proxy_list.length ≤ st.num_proxies
       ∧ ∀ p ∈ (get_working_proxies st now env).1.proxy_list,
           (get_working_proxies st now env).1.isBlacklistedNow now p = false) :=
  refresh_pool_cases st now env

theorem getD_mem_of_ne_nil {l : List String} (hne : l ≠ []) (n : Nat) (d : String) :
    l.getD (n % l.length) d ∈ l := by
  have hlen : 0 < l.length := List.length_pos.mpr hne
  have hlt : n % l.length < l.length := Nat.mod_lt _ hlen
  rw [List.getD_eq_getElem l d hlt]
  exact List.getElem_mem hlt

theorem choose_proxy_mem (st : ProxyManager) (now : Int) (env : GetProxyEnv)
    (avail : List String) (p : String) (hne : avail ≠ [])
    (h : (choose_proxy st now env avail).2 = Except.ok (some p)) : p ∈ avail := by
  unfold choose_proxy at h
  simp only [Except.ok.injEq, Option.some.injEq] at h
  rw [← h]
  exact getD_mem_of_ne_nil hne env.pick ""

theorem available_of_not_blacklisted (st : ProxyManager) (now : Int) {p : String}
    (h : p ∈ available_of st now) : st.isBlacklistedNow now p = false := by
  unfold available_of at h
  have := (List.mem_filter.mp h).2
  simpa using this

theorem get_proxy_select_sound (st : ProxyManager) (now : Int) (env : GetProxyEnv)
    (k : Nat) (p : String)
    (h : (get_proxy_select st now env k).2 = Except.ok (some p)) :
    st.isBlacklistedNow now p = false := by
  unfold get_proxy_select at h
  split at h
  · by_cases hav : available_of st now = []
    · rw [if_pos hav] at h
      rcases hr : refresh_proxies st now (env.refresh_envs k) with ⟨st2, r⟩
      rw [hr] at h
      cases r with
      | error e => simp at h
      | ok u =>
        cases u
        dsimp only at h
        by_cases hav2 : available_of st2 now = []
        · rw [if_pos hav2] at h
          simp at h
        · rw [if_neg hav2] at h
          have hmem := choose_proxy_mem st2 now env _ p hav2 h
          have hsel := available_of_not_blacklisted st2 now hmem
          have hbl : st2.blacklist = st.blacklist := by
            have := (refresh_proxies_bl st now (env.refresh_envs k)).1
            rwa [hr] at this
          have hbd : st2.blacklist_duration = st.blacklist_duration := by
            have := (refresh_proxies_bl st now (env.refresh_envs k)).2
            rwa [hr] at this
          rw [← isBlacklistedNow_congr now p hbl hbd]
          exact hsel
    · rw [if_neg hav] at h
      exact available_of_not_blacklisted st now (choose_proxy_mem st now env _ p hav h)
  · simp at h

theorem get_proxy_try_sound (st : ProxyManager) (now : Int) (env : GetProxyEnv)
    (p : String) (h : (get_proxy_try st now env).2 = Except.ok (some p)) :
    st.isBlacklistedNow now p = false := by
  unfold get_proxy_try at h
  by_cases hemp : st.proxy_list = []
  · rw [if_pos hemp] at h
    by_cases hint : now - st.last_refresh > st.refresh_interval
    · rw [if_pos hint] at h
      rcases hr1 : refresh_proxies st now (env.refresh_envs 0) with ⟨st1, r1⟩
      rw [hr1] at h
      have hbl1 : st1.blacklist = st.blacklist := by
        have := (refresh_proxies_bl st now (env.refresh_envs 0)).1
        rwa [hr1] at this
      have hbd1 : st1.blacklist_duration = st.blacklist_duration := by
        have := (refresh_proxies_bl st now (env.refresh_envs 0)).2
        rwa [hr1] at this
      cases r1 with
      | error e => simp at h
      | ok u =>
        cases u
        dsimp only at h
        by_cases hemp1 : st1.proxy_list = []
        · rw [if_pos hemp1] at h
          rcases hr2 : refresh_proxies st1 now (env.refresh_envs 1) with ⟨st2, r2⟩
          rw [hr2] at h
          dsimp only at h
          have hbl2 : st2.blacklist = st1.blacklist := by
            have := (refresh_proxies_bl st1 now (env.refresh_envs 1)).1
            rwa [hr2] at this
          have hbd2 : st2.blacklist_duration = st1.blacklist_duration := by
            have := (refresh_proxies_bl st1 now (env.refresh_envs 1)).2
            rwa [hr2] at this
          cases r2 with
          | error e => simp at h
          | ok u =>
            cases u
            dsimp only at h
            by_cases hemp2 : st2.proxy_list = []
            · rw [if_pos hemp2] at h
              simp at h
            · rw [if_neg hemp2] at h
              rw [← isBlacklistedNow_congr now p hbl1 hbd1,
                ← isBlacklistedNow_congr now p hbl2 hbd2]
              exact get_proxy_select_sound st2 now env 2 p h
        · rw [if_neg hemp1] at h
          dsimp only at h
          by_cases hemp1' : st1.proxy_list = []
          · exact absurd hemp1' hemp1
          · rw [if_neg hemp1'] at h
            rw [← isBlacklistedNow_congr now p hbl1 hbd1]
            exact get_proxy_select_sound st1 now env 1 p h
    · rw [if_neg hint] at h
      dsimp only at h
      rw [if_pos hemp] at h
      rcases hr2 : refresh_proxies st now (env.refresh_envs 0) with ⟨st2, r2⟩
      rw [hr2] at h
      have hbl2 : st2.blacklist = st.blacklist := by
        have := (refresh_proxies_bl st now (env.refresh_envs 0)).1
        rwa [hr2] at this
      have hbd2 : st2.blacklist_duration = st.blacklist_duration := by
        have := (refresh_proxies_bl st now (env.refresh_envs 0)).2
        rwa [hr2] at this
      cases r2 with
      | error e => simp at h
      | ok u =>
        cases u
        dsimp only at h
        by_cases hemp2 : st2.proxy_list = []
        · rw [if_pos hemp2] at h
          simp at h
        · rw [if_neg hemp2] at h
          rw [← isBlacklistedNow_congr now p hbl2 hbd2]
          exact get_proxy_select_sound st2 now env 1 p h
  · rw [if_neg hemp] at h
    dsimp only at h
    by_cases hemp' : st.proxy_list = []
    · exact absurd hemp' hemp
    · rw [if_neg hemp'] at h
      exact get_proxy_select_sound st now env 0 p h

/-- C10 (confirmed): `get_proxy` never returns an address whose blacklist
entry is unexpired: the reused `current_proxy` is re-checked against the
blacklist and invalidated when (unexpired-)blacklisted, and a fresh
selection draws only from non-blacklisted pool members; in addition,
evicting the bound address via `remove_proxy` clears `current_proxy`. -/
theorem get_proxy_no_unexpired_blacklisted (st : ProxyManager) (now : Int)
    (env : GetProxyEnv) (p : String) :
    ((get_proxy st now env).2 = some p → st.isBlacklistedNow now p = false)
    ∧ (st.current_proxy = some p → (st.remove_proxy now p).current_proxy = none) := by
  constructor
  · intro h
    unfold get_proxy at h
    split at h
    · simp at h
    · split at h
      · simp at h
      · dsimp only at h
        rcases hc : st.current_proxy with _ | cp
        · rw [hc] at h
          rcases ht : get_proxy_try st now env with ⟨st', r⟩
          rw [ht] at h
          cases r with
          | error e => simp at h
          | ok v =>
            dsimp only at h
            subst h
            exact get_proxy_try_sound st now env p (by rw [ht])
        · rw [hc] at h
          by_cases hbl : st.isBlacklistedNow now cp
          · simp only [hbl, if_true] at h
            rcases ht : get_proxy_try { st with current_proxy := none } now env with ⟨st', r⟩
            rw [ht] at h
            cases r with
            | error e => simp at h
            | ok v =>
              dsimp only at h
              subst h
              have := get_proxy_try_sound { st with current_proxy := none } now env p
                (by rw [ht])
              simpa [ProxyManager.isBlacklistedNow] using this
          · simp only [hbl] at h
            simp only [Bool.false_eq_true, if_false] at h
            have hp : cp = p := by simpa using h
            rw [← hp]
            simpa using hbl
  · intro h
    unfold ProxyManager.remove_proxy ProxyManager.save_blacklist
    split <;> (dsimp only; rw [if_pos (by simpa using h)])

def trivial_refresh_env : RefreshEnv :=
  { raw_proxies := [], probe_ok := fun _ => false, probe_latency := fun _ => 0 }

def trivial_get_proxy_env : GetProxyEnv :=
  { refresh_envs := fun _ => trivial_refresh_env, pick := 0 }

def c10_manager : ProxyManager :=
  { default_manager with
    proxy_list := ["1.2.3.4:80"]
    current_proxy := some "1.2.3.4:80" }

/-- Witness for C10 at a concrete input: the manager returns its bound
proxy, which indeed has no unexpired blacklist entry, and evicting it
clears the binding. -/
theorem get_proxy_no_unexpired_blacklisted_witness :
    c10_manager.isBlacklistedNow 5 "1.2.3.4:80" = false
    ∧ (c10_manager.remove_proxy 5 "1.2.3.4:80").current_proxy = none := by
  refine ⟨(get_proxy_no_unexpired_blacklisted c10_manager 5 trivial_get_proxy_env
      "1.2.3.4:80").1 ?_,
    (get_proxy_no_unexpired_blacklisted c10_manager 5 trivial_get_proxy_env
      "1.2.3.4:80").2 ?_⟩
  · decide
  · decide

/-! ### The Fetch Orchestrator: `Fetcher.fetch_page` (fetcher.py lines 65-236) -/

/-- The transport-level outcome of one attempt's `self.client.get`
(fetcher.py lines 148-185): a 2xx response with its body text, or one of
the exception classes the except-clause distinguishes. -/
inductive TransportOutcome where
  | success (body : String)
  | http_error
  | timeout_error
  | proxy_conn_error
  | client_error
  deriving Repr, DecidableEq

def TransportOutcome.is_transport_failure : TransportOutcome → Bool
  | .success _ => false
  | _ => true

/-- The error classification of fetcher.py lines 209-213: TimeoutError →
TIMEOUT, ClientProxyConnectionError → CONNECTION, anything else → OTHER. -/
def classify_error : TransportOutcome → ProxyErrorType
  | .timeout_error => ProxyErrorType.TIMEOUT
  | .proxy_conn_error => ProxyErrorType.CONNECTION
  | _ => ProxyErrorType.OTHER

/-- The calls `fetch_page` makes on its proxy manager, in program order,
plus one marker per attempt iteration. -/
inductive FetchEvent where
  | attempt (i : Nat)
  | mark_failure (p : String) (k : ProxyErrorType)
  | mark_success (p : String)
  | evict (p : String)
  | refresh_call
  deriving Repr, DecidableEq

/-- The mutable state of a `Fetcher` (fetcher.py lines 24-52), restricted to
the fields `fetch_page`/`download_pdf` read or write. -/
structure Fetcher where
  pm : ProxyManager
  max_retries : Nat
  rolling_window_size : Nat
  successful_requests : Nat
  failed_requests : Nat
  proxies_used : List String
  proxies_removed : Nat
  pdfs_downloaded : Nat
  request_times : List Int
  deriving Repr, DecidableEq

/-- Inputs of one `fetch_page` call: the transport outcome and elapsed time
of each attempt index, the external challenge detector
(`utils.detect_captcha`, an external collaborator per spec section 6), and
the oracles of the at-most-one `get_proxy` and captcha-triggered
`refresh_proxies` calls. -/
structure FetchEnv where
  outcomes : Nat → TransportOutcome
  detect_captcha : String → Bool
  duration : Nat → Int
  acquire_env : GetProxyEnv
  captcha_refresh_env : RefreshEnv
  now : Int

/-- Python's `lst[-k:]`, used for the rolling latency window. -/
def take_last {α : Type} (k : Nat) (l : List α) : List α := l.drop (l.length - k)

/-- The retry loop of `fetch_page` (fetcher.py lines 80-236), iterating over
the remaining attempt indices of `for attempt in range(retry_count)`; a
singleton list marks the last attempt.  The proxy binding is acquired once
before the loop and never changes (sticky binding). -/
def fetch_page_go (env : FetchEnv) :
    List Nat → Fetcher → Option String → List FetchEvent →
    Fetcher × List FetchEvent × Option String
  | [], f, _, trace => (f, trace, none)
  | a :: rest, f, proxy, trace =>
    let trace := trace ++ [FetchEvent.attempt a]
    match env.outcomes a with
    | TransportOutcome.success body =>
      if env.detect_captcha body then
        let f := { f with failed_requests := f.failed_requests + 1 }
        let fp :=
          match proxy with
          | some p =>
            let pm' := (f.pm.mark_proxy_failure p ProxyErrorType.CAPTCHA).remove_proxy env.now p
            ({ f with pm := pm' },
             trace ++ [FetchEvent.mark_failure p ProxyErrorType.CAPTCHA, FetchEvent.evict p])
          | none => (f, trace)
        let f := { fp.1 with proxies_removed := fp.1.proxies_removed + 1 }
        let f := { f with pm := (refresh_proxies f.pm env.now env.captcha_refresh_env).1 }
        (f, fp.2 ++ [FetchEvent.refresh_call], none)
      else
        let times := take_last f.rolling_window_size (f.request_times ++ [env.duration a])
        let f := { f with successful_requests := f.successful_requests + 1, request_times := times }
        match proxy with
        | some p =>
          ({ f with pm := f.pm.mark_proxy_success p },
           trace ++ [FetchEvent.mark_success p], some body)
        | none => (f, trace, some body)
    | o =>
      let f := { f with failed_requests := f.failed_requests + 1 }
      let kind := classify_error o
      let fp :=
        match proxy with
        | some p =>
          ({ f with pm := f.pm.mark_proxy_failure p kind },
           trace ++ [FetchEvent.mark_failure p kind])
        | none => (f, trace)
      match rest with
      | [] =>
        match proxy with
        | some p =>
          let pm' := fp.1.pm.remove_proxy env.now p
          ({ fp.1 with pm := pm', proxies_removed := fp.1.proxies_removed + 1 },
           fp.2 ++ [FetchEvent.evict p], none)
        | none => (fp.1, fp.2, none)
      | _ => fetch_page_go env rest fp.1 proxy fp.2

/-- `fetch_page` (fetcher.py lines 65-236): resolve the retry count
(`retry_count or self.max_retries`), acquire one proxy binding via
`get_proxy`, record it in `proxies_used`, then run the retry loop. -/
def fetch_page (f : Fetcher) (env : FetchEnv) (retry_count : Option Nat) :
    Fetcher × List FetchEvent × Option String :=
  let n :=
    match retry_count with
    | some k => if k = 0 then f.max_retries else k
    | none => f.max_retries
  let acquired := get_proxy f.pm env.now env.acquire_env
  let f1 := { f with pm := acquired.1 }
  let f2 :=
    match acquired.2 with
    | some p =>
      { f1 with proxies_used :=
          if p ∈ f1.proxies_used then f1.proxies_used else f1.proxies_used ++ [p] }
    | none => f1
  fetch_page_go env (List.range n) f2 acquired.2 []

/-! ### Claim C1: NoProxiesAvailable is swallowed, not propagated -/

/-- When no proxy was bound, the retry loop makes no proxy-manager calls at
all: its event trace holds only attempt markers and (captcha-path) refresh
calls. -/
theorem fetch_page_go_no_proxy_events (env : FetchEnv) :
    ∀ (attempts : List Nat) (f : Fetcher) (trace : List FetchEvent),
      ∀ e ∈ (fetch_page_go env attempts f none trace).2.1,
        e ∈ trace ∨ (∃ i, e = FetchEvent.attempt i) ∨ e = FetchEvent.refresh_call := by
  intro attempts
  induction attempts with
  | nil =>
    intro f trace e he
    exact Or.inl (by simpa [fetch_page_go] using he)
  | cons a rest ih =>
    intro f trace e he
    simp only [fetch_page_go] at he
    cases ho : env.outcomes a with
    | success body =>
      rw [ho] at he
      dsimp only at he
      by_cases hc : env.detect_captcha body
      · simp only [hc, if_true] at he
        rcases List.mem_append.mp he with h | h
        · rcases List.mem_append.mp h with h | h
          · exact Or.inl h
          · exact Or.inr (Or.inl ⟨a, by simpa using h⟩)
        · exact Or.inr (Or.inr (by simpa using h))
      · simp only [hc] at he
        simp only [Bool.false_eq_true, if_false] at he
        rcases List.mem_append.mp he with h | h
        · exact Or.inl h
        · exact Or.inr (Or.inl ⟨a, by simpa using h⟩)
    | http_error =>
      rw [ho] at he
      dsimp only at he
      cases rest with
      | nil =>
        dsimp only [fetch_page_go] at he
        rcases List.mem_append.mp he with h | h
        · exact Or.inl h
        · exact Or.inr (Or.inl ⟨a, by simpa using h⟩)
      | cons b bs =>
        rcases ih _ _ e he with h | h
        · rcases List.mem_append.mp h with h | h
          · exact Or.inl h
          · exact Or.inr (Or.inl ⟨a, by simpa using h⟩)
        · exact Or.inr h
    | timeout_error =>
      rw [ho] at he
      dsimp only at he
      cases rest with
      | nil =>
        dsimp only [fetch_page_go] at he
        rcases List.mem_append.mp he with h | h
        · exact Or.inl h
        · exact Or.inr (Or.inl ⟨a, by simpa using h⟩)
      | cons b bs =>
        rcases ih _ _ e he with h | h
        · rcases List.mem_append.mp h with h | h
          · exact Or.inl h
          · exact Or.inr (Or.inl ⟨a, by simpa using h⟩)
        · exact Or.inr h
    | proxy_conn_error =>
      rw [ho] at he
      dsimp only at he
      cases rest with
      | nil =>
        dsimp only [fetch_page_go] at he
        rcases List.mem_append.mp he with h | h
        · exact Or.inl h
        · exact Or.inr (Or.inl ⟨a, by simpa using h⟩)
      | cons b bs =>
        rcases ih _ _ e he with h | h
        · rcases List.mem_append.mp h with h | h
          · exact Or.inl h
          · exact Or.inr (Or.inl ⟨a, by simpa using h⟩)
        · exact Or.inr h
    | client_error =>
      rw [ho] at he
      dsimp only at he
      cases rest with
      | nil =>
        dsimp only [fetch_page_go] at he
        rcases List.mem_append.mp he with h | h
        · exact Or.inl h
        · exact Or.inr (Or.inl ⟨a, by simpa using h⟩)
      | cons b bs =>
        rcases ih _ _ e he with h | h
        · rcases List.mem_append.mp h with h | h
          · exact Or.inl h
          · exact Or.inr (Or.inl ⟨a, by simpa using h⟩)
        · exact Or.inr h

/-- C1 (amended theorem): when the pool is empty and every refresh the
manager can attempt yields no candidates, `get_proxy` swallows the internal
`NoProxiesAvailable` and returns `none`; `fetch_page` then proceeds with a
direct (proxy-less) connection, making no proxy-manager calls, instead of
propagating an exception to its caller. -/
theorem empty_pool_get_proxy_returns_none (st : ProxyManager) (now : Int)
    (env : GetProxyEnv)
    (hemp : st.proxy_list = [])
    (hcur : st.current_proxy = none)
    (hforce : st.force_direct_connection = false)
    (hdebug : st.debug_mode = false)
    (hraw : ∀ i, (env.refresh_envs i).raw_proxies = []) :
    (get_proxy st now env).2 = none
    ∧ ∀ (f : Fetcher) (fenv : FetchEnv) (rc : Option Nat),
        f.pm = st → fenv.acquire_env = env → fenv.now = now →
        ∀ e ∈ (fetch_page f fenv rc).2.1,
          (∃ i, e = FetchEvent.attempt i) ∨ e = FetchEvent.refresh_call := by
  have hgw : ∀ (e' : RefreshEnv), e'.raw_proxies = [] →
      get_working_proxies st now e' = (st, Except.error ()) := by
    intro e' he'
    unfold get_working_proxies
    rw [hforce, hdebug, hemp]
    simp [he']
  have htry : get_proxy_try st now env = (st, Except.error ()) := by
    unfold get_proxy_try refresh_proxies
    by_cases hint : now - st.last_refresh > st.refresh_interval
    · simp [hemp, hint, hgw _ (hraw 0)]
    · simp [hemp, hint, hgw _ (hraw 0)]
  have hgp : get_proxy st now env = ({ st with current_proxy := none }, none) := by
    unfold get_proxy
    simp [hforce, hdebug, hcur, htry]
  refine ⟨by rw [hgp], ?_⟩
  intro f fenv rc hf ha hn e he
  unfold fetch_page at he
  rw [hf, ha, hn, hgp] at he
  dsimp only at he
  rcases fetch_page_go_no_proxy_events fenv _ _ _ e he with h | h
  · simp at h
  · exact h

def c1_manager : ProxyManager :=
  { default_manager with refresh_interval := 1 }

def c1_fetch_env : FetchEnv :=
  { outcomes := fun _ => TransportOutcome.success "page"
    detect_captcha := fun _ => false
    duration := fun _ => 1
    acquire_env := trivial_get_proxy_env
    captcha_refresh_env := trivial_refresh_env
    now := 5 }

def c1_fetcher : Fetcher :=
  { pm := c1_manager, max_retries := 3, rolling_window_size := 20
    successful_requests := 0, failed_requests := 0, proxies_used := []
    proxies_removed := 0, pdfs_downloaded := 0, request_times := [] }

/-- C1 (counterexample): with an empty pool whose refresh attempts yield
nothing, the acquisition DOES fail internally with `NoProxiesAvailable`
(the try-block errors), but `get_proxy` returns `none` instead of raising,
and `fetch_page` returns the direct-connection content — no exception ever
reaches `fetch_page`'s caller, contradicting the claimed propagation. -/
theorem no_proxies_not_propagated :
    (get_proxy_try c1_manager 5 trivial_get_proxy_env).2.isOk = false
    ∧ (get_proxy c1_manager 5 trivial_get_proxy_env).2 = none
    ∧ (fetch_page c1_fetcher c1_fetch_env none).2.2 = some "page"
    ∧ (fetch_page c1_fetcher c1_fetch_env none).2.1 = [FetchEvent.attempt 0] := by
  decide

/-- Witness for the amended C1 at the concrete empty-pool input. -/
theorem empty_pool_get_proxy_returns_none_witness :
    (get_proxy c1_manager 5 trivial_get_proxy_env).2 = none
    ∧ ∀ e ∈ (fetch_page c1_fetcher c1_fetch_env none).2.1,
        (∃ i, e = FetchEvent.attempt i) ∨ e = FetchEvent.refresh_call := by
  have h := empty_pool_get_proxy_returns_none c1_manager 5 trivial_get_proxy_env
    rfl rfl rfl rfl (fun _ => rfl)
  exact ⟨h.1, fun e he => h.2 c1_fetcher c1_fetch_env none rfl rfl rfl e he⟩

/-! ### Claim C4: sticky retry keeps the same proxy and never evicts -/

/-- C4 (confirmed): with `maxRetries = 3` and a bound proxy whose transport
fails on attempts 1 and 2 and succeeds (challenge-free) on attempt 3,
`fetch_page` returns the content; the manager-call trace is exactly two
`mark_proxy_failure`s and one `mark_proxy_success`, all against the one
acquired address, with no eviction; the pool and blacklist are exactly as
they were right after acquisition. -/
theorem sticky_retry (f : Fetcher) (env : FetchEnv) (p : String)
    (pm1 : ProxyManager) (body : String)
    (hacq : get_proxy f.pm env.now env.acquire_env = (pm1, some p))
    (h0 : (env.outcomes 0).is_transport_failure = true)
    (h1 : (env.outcomes 1).is_transport_failure = true)
    (h2 : env.outcomes 2 = TransportOutcome.success body)
    (hcap : env.detect_captcha body = false) :
    (fetch_page f env (some 3)).2.2 = some body
    ∧ (fetch_page f env (some 3)).2.1
        = [FetchEvent.attempt 0, FetchEvent.mark_failure p (classify_error (env.outcomes 0)),
           FetchEvent.attempt 1, FetchEvent.mark_failure p (classify_error (env.outcomes 1)),
           FetchEvent.attempt 2, FetchEvent.mark_success p]
    ∧ (fetch_page f env (some 3)).1.pm.proxy_list = pm1.proxy_list
    ∧ (fetch_page f env (some 3)).1.pm.blacklist = pm1.blacklist := by
  have hfail_list : ∀ (s : ProxyManager) (q : String) (k : ProxyErrorType),
      (s.mark_proxy_failure q k).proxy_list = s.proxy_list :=
    fun s q k => (mark_proxy_failure_perf_only s q k).1
  have hfail_bl : ∀ (s : ProxyManager) (q : String) (k : ProxyErrorType),
      (s.mark_proxy_failure q k).blacklist = s.blacklist :=
    fun s q k => (mark_proxy_failure_perf_only s q k).2.1
  have hsucc_list : ∀ (s : ProxyManager) (q : String),
      (s.mark_proxy_success q).proxy_list = s.proxy_list :=
    fun s q => (mark_proxy_success_perf_only s q).1
  have hsucc_bl : ∀ (s : ProxyManager) (q : String),
      (s.mark_proxy_success q).blacklist = s.blacklist :=
    fun s q => (mark_proxy_success_perf_only s q).2.1
  have hrange : List.range 3 = [0, 1, 2] := rfl
  cases ho0 : env.outcomes 0 with
  | success b => rw [ho0] at h0; simp [TransportOutcome.is_transport_failure] at h0
  | _ => ?_
  all_goals cases ho1 : env.outcomes 1 with
  | success b => rw [ho1] at h1; simp [TransportOutcome.is_transport_failure] at h1
  | _ => ?_
  all_goals
    refine ⟨?_, ?_, ?_, ?_⟩ <;>
      simp [fetch_page, hrange, hacq, fetch_page_go, ho0, ho1, h2, hcap,
        hfail_list, hfail_bl, hsucc_list, hsucc_bl]

def c4_manager : ProxyManager :=
  { default_manager with proxy_list := ["9.9.9.9:3128"] }

def c4_fetcher : Fetcher :=
  { c1_fetcher with pm := c4_manager }

def c4_env : FetchEnv :=
  { outcomes := fun a =>
      if a = 2 then TransportOutcome.success "OK"
      else if a = 0 then TransportOutcome.timeout_error
      else TransportOutcome.proxy_conn_error
    detect_captcha := fun _ => false
    duration := fun _ => 1
    acquire_env := trivial_get_proxy_env
    captcha_refresh_env := trivial_refresh_env
    now := 7 }

/-- Witness for C4 at a concrete input: timeout, connection error, then
success with the one bound proxy. -/
theorem sticky_retry_witness :
    (fetch_page c4_fetcher c4_env (some 3)).2.2 = some "OK"
    ∧ (fetch_page c4_fetcher c4_env (some 3)).2.1
        = [FetchEvent.attempt 0,
           FetchEvent.mark_failure "9.9.9.9:3128" (classify_error (c4_env.outcomes 0)),
           FetchEvent.attempt 1,
           FetchEvent.mark_failure "9.9.9.9:3128" (classify_error (c4_env.outcomes 1)),
           FetchEvent.attempt 2, FetchEvent.mark_success "9.9.9.9:3128"]
    ∧ (fetch_page c4_fetcher c4_env (some 3)).1.pm.proxy_list
        = (get_proxy c4_fetcher.pm c4_env.now c4_env.acquire_env).1.proxy_list
    ∧ (fetch_page c4_fetcher c4_env (some 3)).1.pm.blacklist
        = (get_proxy c4_fetcher.pm c4_env.now c4_env.acquire_env).1.blacklist :=
  sticky_retry c4_fetcher c4_env "9.9.9.9:3128"
    (get_proxy c4_fetcher.pm c4_env.now c4_env.acquire_env).1 "OK"
    (by decide) (by decide) (by decide) (by decide) (by decide)

/-! ### Claim C5: challenge detection fail-fasts, evicts and refreshes -/

theorem remove_proxy_facts (st : ProxyManager) (now : Int) (p : String) :
    (st.remove_proxy now p).proxy_list = st.proxy_list.erase p
    ∧ (st.remove_proxy now p).blacklist = alistInsert st.blacklist p now
    ∧ (st.remove_proxy now p).blacklist_duration = st.blacklist_duration := by
  unfold ProxyManager.remove_proxy ProxyManager.save_blacklist
  by_cases hmem : p ∈ st.proxy_list
  · simp only [if_pos hmem]
    split <;> exact ⟨rfl, rfl, rfl⟩
  · simp only [if_neg hmem, List.erase_of_not_mem hmem]
    split <;> exact ⟨rfl, rfl, rfl⟩

/-- C5 (confirmed): a transport success whose body the challenge detector
flags makes `fetch_page` return `null` after exactly one attempt (despite
`maxRetries = 3`): the trace is exactly one attempt, one
`mark_proxy_failure(CAPTCHA)`, one eviction and one refresh call; the
proxy is no longer in the active pool and its blacklist entry carries the
eviction timestamp. -/
theorem challenge_fail_fast (f : Fetcher) (env : FetchEnv) (p : String)
    (pm1 : ProxyManager) (body : String)
    (hacq : get_proxy f.pm env.now env.acquire_env = (pm1, some p))
    (h0 : env.outcomes 0 = TransportOutcome.success body)
    (hcap : env.detect_captcha body = true)
    (hnd : pm1.proxy_list.Nodup)
    (hdur : 0 < pm1.blacklist_duration) :
    (fetch_page f env (some 3)).2.2 = none
    ∧ (fetch_page f env (some 3)).2.1
        = [FetchEvent.attempt 0, FetchEvent.mark_failure p ProxyErrorType.CAPTCHA,
           FetchEvent.evict p, FetchEvent.refresh_call]
    ∧ p ∉ (fetch_page f env (some 3)).1.pm.proxy_list
    ∧ alistLookup (fetch_page f env (some 3)).1.pm.blacklist p = some env.now := by
  have hrange : List.range 3 = [0, 1, 2] := rfl
  set pmm := (pm1.mark_proxy_failure p ProxyErrorType.CAPTCHA) with hpmm
  set pm2 := pmm.remove_proxy env.now p with hpm2
  have hmark := mark_proxy_failure_perf_only pm1 p ProxyErrorType.CAPTCHA
  have hrem := remove_proxy_facts pmm env.now p
  have hpm2_list : pm2.proxy_list = pm1.proxy_list.erase p := by
    rw [hpm2, hrem.1, hmark.1]
  have hpm2_bl : pm2.blacklist = alistInsert pm1.blacklist p env.now := by
    rw [hpm2, hrem.2.1, hmark.2.1]
  have hpm2_dur : pm2.blacklist_duration = pm1.blacklist_duration := by
    rw [hpm2, hrem.2.2, hmark.2.2.2.2.1]
  have hlookup2 : alistLookup pm2.blacklist p = some env.now := by
    rw [hpm2_bl]
    exact alistLookup_insert_self _ _ _
  have hpm2_blacklisted : pm2.isBlacklistedNow env.now p = true := by
    unfold ProxyManager.isBlacklistedNow
    rw [hlookup2, hpm2_dur]
    simpa using hdur
  have heval : (fetch_page f env (some 3)).1.pm
      = (refresh_proxies pm2 env.now env.captcha_refresh_env).1
      ∧ (fetch_page f env (some 3)).2.2 = none
      ∧ (fetch_page f env (some 3)).2.1
        = [FetchEvent.attempt 0, FetchEvent.mark_failure p ProxyErrorType.CAPTCHA,
           FetchEvent.evict p, FetchEvent.refresh_call] := by
    refine ⟨?_, ?_, ?_⟩ <;>
      simp [fetch_page, hrange, hacq, fetch_page_go, h0, hcap, hpm2, hpmm]
  have hfinal_bl : (fetch_page f env (some 3)).1.pm.blacklist = pm2.blacklist := by
    rw [heval.1, refresh_proxies_fst]
    exact (get_working_proxies_frame pm2 env.now env.captcha_refresh_env).1
  have hfinal_dur : (fetch_page f env (some 3)).1.pm.blacklist_duration
      = pm2.blacklist_duration := by
    rw [heval.1, refresh_proxies_fst]
    exact (get_working_proxies_frame pm2 env.now env.captcha_refresh_env).2.2.1
  refine ⟨heval.2.1, heval.2.2, ?_, by rw [hfinal_bl]; exact hlookup2⟩
  intro hp
  rw [heval.1, refresh_proxies_fst] at hp
  rcases refresh_pool_cases pm2 env.now env.captcha_refresh_env with hsame | ⟨_, hnb⟩
  · rw [hsame, hpm2_list] at hp
    exact hnd.not_mem_erase hp
  · have := hnb p hp
    rw [isBlacklistedNow_congr env.now p
      (get_working_proxies_frame pm2 env.now env.captcha_refresh_env).1
      (get_working_proxies_frame pm2 env.now env.captcha_refresh_env).2.2.1] at this
    rw [hpm2_blacklisted] at this
    exact absurd this (by simp)

def c5_env : FetchEnv :=
  { outcomes := fun _ => TransportOutcome.success "robot check"
    detect_captcha := fun b => b = "robot check"
    duration := fun _ => 1
    acquire_env := trivial_get_proxy_env
    captcha_refresh_env := trivial_refresh_env
    now := 9 }

/-- Witness for C5 at a concrete input: a flagged body on the first attempt
of a three-attempt fetch. -/
theorem challenge_fail_fast_witness :
    (fetch_page c4_fetcher c5_env (some 3)).2.2 = none
    ∧ (fetch_page c4_fetcher c5_env (some 3)).2.1
        = [FetchEvent.attempt 0,
           FetchEvent.mark_failure "9.9.9.9:3128" ProxyErrorType.CAPTCHA,
           FetchEvent.evict "9.9.9.9:3128", FetchEvent.refresh_call]
    ∧ "9.9.9.9:3128" ∉ (fetch_page c4_fetcher c5_env (some 3)).1.pm.proxy_list
    ∧ alistLookup (fetch_page c4_fetcher c5_env (some 3)).1.pm.blacklist
        "9.9.9.9:3128" = some 9 :=
  challenge_fail_fast c4_fetcher c5_env "9.9.9.9:3128"
    (get_proxy c4_fetcher.pm c5_env.now c5_env.acquire_env).1 "robot check"
    (by decide) (by decide) (by decide) (by decide) (by decide)

/-! ### Claim C6: `Fetcher.download_pdf` (fetcher.py lines 243-335) -/

/-- The transport outcome of one `download_pdf` attempt: a raised error
(non-2xx via `raise_for_status`, timeout, connection or other client
error), or a 2xx response carrying its declared Content-Type and body
chunks.  `stream_ok = false` means the chunk iteration raised mid-stream
(an `aiohttp.ClientError`) after `chunks` had already been written to the
open file. -/
inductive DlOutcome where
  | http_error
  | timeout_error
  | proxy_conn_error
  | client_error
  | response (content_type : String) (chunks : List String) (stream_ok : Bool)
  deriving Repr, DecidableEq

/-- The error classification of fetcher.py lines 280-284. -/
def classify_dl_error : DlOutcome → ProxyErrorType
  | .timeout_error => ProxyErrorType.TIMEOUT
  | .proxy_conn_error => ProxyErrorType.CONNECTION
  | _ => ProxyErrorType.OTHER

/-- Inputs of one `download_pdf` call: per-attempt transport outcomes, the
initial `get_proxy` oracle, and the per-retry refresh/rebind oracles of the
rotation block (fetcher.py lines 295-326). -/
structure DownloadEnv where
  outcomes : Nat → DlOutcome
  acquire_env : GetProxyEnv
  retry_refresh_env : Nat → RefreshEnv
  retry_acquire_env : Nat → GetProxyEnv
  now : Int

/-- `if proxy: mark_proxy_failure(...)` (fetcher.py lines 286-287). -/
def download_pdf_mark (f : Fetcher) (proxy : Option String)
    (kind : ProxyErrorType) : Fetcher :=
  match proxy with
  | some p => { f with pm := f.pm.mark_proxy_failure p kind }
  | none => f

/-- The proxy-rotation block before a retry (fetcher.py lines 295-326):
when a proxy was in use, refresh the pool (a raised `NoProxiesAvailable`
degrades to a direct connection) and rebind via `get_proxy`; the net effect
of the if/elif chain is `proxy := new_proxy`. -/
def download_pdf_rotate (env : DownloadEnv) (a : Nat) (f : Fetcher)
    (proxy : Option String) : Fetcher × Option String :=
  match proxy with
  | some _ =>
    match refresh_proxies f.pm env.now (env.retry_refresh_env a) with
    | (pm, Except.error _) => ({ f with pm := pm }, none)
    | (pm, Except.ok _) =>
      let acq := get_proxy pm env.now (env.retry_acquire_env a)
      ({ f with pm := acq.1 }, acq.2)
  | none => (f, proxy)

/-- The retry loop of `download_pdf` (fetcher.py lines 254-335).  The second
component of the result models the file at `destinationPath` (`none` = no
file, `some s` = a file with contents `s`; opening with mode "wb" truncates
and writes the received chunks as they arrive). -/
def download_pdf_go (env : DownloadEnv) :
    List Nat → Fetcher → Option String → Option String →
    Fetcher × Option String × Bool
  | [], f, _, file => (f, file, false)
  | a :: rest, f, proxy, file =>
    match env.outcomes a with
    | DlOutcome.response ct chunks stream_ok =>
      if ct = "application/pdf" then
        if stream_ok then
          let f := { f with pdfs_downloaded := f.pdfs_downloaded + 1 }
          let f :=
            match proxy with
            | some p => { f with pm := f.pm.mark_proxy_success p }
            | none => f
          (f, some (String.join chunks), true)
        else
          let file := some (String.join chunks)
          let f := download_pdf_mark f proxy ProxyErrorType.OTHER
          match rest with
          | [] =>
            (match proxy with
             | some p => { f with pm := f.pm.remove_proxy env.now p }
             | none => f,
             file, false)
          | _ =>
            let fp := download_pdf_rotate env a f proxy
            download_pdf_go env rest fp.1 fp.2 file
      else (f, file, false)
    | o =>
      let f := download_pdf_mark f proxy (classify_dl_error o)
      match rest with
      | [] =>
        (match proxy with
         | some p => { f with pm := f.pm.remove_proxy env.now p }
         | none => f,
         file, false)
      | _ =>
        let fp := download_pdf_rotate env a f proxy
        download_pdf_go env rest fp.1 fp.2 file

/-- `download_pdf` (fetcher.py lines 243-335): acquire a proxy, then run the
hard-coded three-attempt loop.  `file0` is the pre-existing state of the
destination path. -/
def download_pdf (f : Fetcher) (env : DownloadEnv) (file0 : Option String) :
    Fetcher × Option String × Bool :=
  let acq := get_proxy f.pm env.now env.acquire_env
  download_pdf_go env (List.range 3) { f with pm := acq.1 } acq.2 file0

def c6_env : DownloadEnv :=
  { outcomes := fun a =>
      if a = 0 then DlOutcome.response "application/pdf" ["AB"] false
      else DlOutcome.http_error
    acquire_env := trivial_get_proxy_env
    retry_refresh_env := fun _ => trivial_refresh_env
    retry_acquire_env := fun _ => trivial_get_proxy_env
    now := 11 }

/-- C6 (counterexample): a PDF response whose chunk stream fails after the
first chunk leaves a partial file at the destination, yet the call returns
`false` (the two remaining attempts also fail) — refuting the claimed
"file exists iff returned true" and "no failing attempt leaves a partial
file behind". -/
theorem download_partial_file_on_failure :
    (download_pdf c1_fetcher c6_env none).2.2 = false
    ∧ (download_pdf c1_fetcher c6_env none).2.1 = some "AB" := by
  decide

/-- When the retry loop returns `true`, the destination file exists (it
holds the body written by the successful attempt). -/
theorem download_pdf_go_true_file (env : DownloadEnv) :
    ∀ (attempts : List Nat) (f : Fetcher) (proxy file : Option String),
      (download_pdf_go env attempts f proxy file).2.2 = true →
      ((download_pdf_go env attempts f proxy file).2.1).isSome = true := by
  intro attempts
  induction attempts with
  | nil =>
    intro f proxy file h
    simp [download_pdf_go] at h
  | cons a rest ih =>
    intro f proxy file h
    simp only [download_pdf_go] at h ⊢
    cases ho : env.outcomes a with
    | response ct chunks stream_ok =>
      rw [ho] at h
      dsimp only at h ⊢
      by_cases hct : ct = "application/pdf"
      · rw [if_pos hct] at h
        rw [if_pos hct]
        cases stream_ok with
        | true => simp
        | false =>
          simp only [Bool.false_eq_true, if_false] at h ⊢
          cases rest with
          | nil => simp at h
          | cons b bs => exact ih _ _ _ h
      · rw [if_neg hct] at h
        simp at h
    | http_error =>
      rw [ho] at h
      dsimp only at h ⊢
      cases rest with
      | nil => simp at h
      | cons b bs => exact ih _ _ _ h
    | timeout_error =>
      rw [ho] at h
      dsimp only at h ⊢
      cases rest with
      | nil => simp at h
      | cons b bs => exact ih _ _ _ h
    | proxy_conn_error =>
      rw [ho] at h
      dsimp only at h ⊢
      cases rest with
      | nil => simp at h
      | cons b bs => exact ih _ _ _ h
    | client_error =>
      rw [ho] at h
      dsimp only at h ⊢
      cases rest with
      | nil => simp at h
      | cons b bs => exact ih _ _ _ h

/-- C6 (amended): a `true` return guarantees a file exists at the
destination, and a response whose declared content type is not
`application/pdf` yields `false` with the destination untouched; but (per
the counterexample) a mid-stream transport failure can leave a partial
file behind while the call returns `false`, so file existence does not
imply a `true` return. -/
theorem download_pdf_amended (f : Fetcher) (env : DownloadEnv)
    (file0 : Option String) :
    ((download_pdf f env file0).2.2 = true →
      ((download_pdf f env file0).2.1).isSome = true)
    ∧ (∀ ct chunks ok, env.outcomes 0 = DlOutcome.response ct chunks ok →
        ct ≠ "application/pdf" →
        (download_pdf f env file0).2.1 = file0
        ∧ (download_pdf f env file0).2.2 = false) := by
  constructor
  · intro h
    exact download_pdf_go_true_file env _ _ _ _ h
  · intro ct chunks ok h0 hct
    unfold download_pdf
    have hrange : List.range 3 = [0, 1, 2] := rfl
    rw [hrange]
    simp only [download_pdf_go, h0]
    rw [if_neg hct]
    exact ⟨rfl, rfl⟩

def c6ok_env : DownloadEnv :=
  { c6_env with outcomes := fun _ => DlOutcome.response "application/pdf" ["PD"] true }

def c6bad_env : DownloadEnv :=
  { c6_env with outcomes := fun _ => DlOutcome.response "text/html" ["x"] true }

/-- Witness for the amended C6: a clean PDF download leaves a file and a
non-PDF response leaves the (absent) destination untouched with `false`. -/
theorem download_pdf_amended_witness :
    ((download_pdf c1_fetcher c6ok_env none).2.1).isSome = true
    ∧ ((download_pdf c1_fetcher c6bad_env none).2.1 = none
       ∧ (download_pdf c1_fetcher c6bad_env none).2.2 = false) := by
  refine ⟨(download_pdf_amended c1_fetcher c6ok_env none).1 (by decide), ?_⟩
  exact (download_pdf_amended c1_fetcher c6bad_env none).2 "text/html" ["x"] true
    (by decide) (by decide)

/-! ### The Crawl Controller: `Fetcher.scrape` (fetcher.py lines 513-709)
and `Fetcher.fetch_cited_by_page` (lines 467-488) -/

/-- A parsed search result (spec: ScrapeResult), restricted to the fields
the crawl controller reads or writes. -/
structure SearchResult where
  title : String
  article_url : Option String
  cited_by_url : Option String
  doi : Option String
  pdf_url : Option String
  pdf_path : Option String
  year : Option Int
  deriving Repr, DecidableEq

/-- The observable actions of one crawl, in program order: search-page
fetches, Storage inserts, GraphSink registrations, cited-title enrichment
fetches, and recursive citation-expansion fetches
(`fetch_cited_by_page` invocations). -/
inductive ScrapeEvent where
  | page_fetch (start_index : Nat)
  | insert (r : SearchResult)
  | graph_add (title : String) (second : Option String) (cited_by_url : Option String)
      (cited_title : Option String) (doi : Option String)
  | cited_title_fetch (url : String)
  | expansion_fetch (url : String) (depth : Nat)
  deriving Repr, DecidableEq

def ScrapeEvent.is_expansion : ScrapeEvent → Bool
  | .expansion_fetch _ _ => true
  | _ => false

/-- External collaborators of the crawl controller (spec section 6): the
query builder, Storage (`result_exists`/`add_result`), the Parser
(`parse_results`/`parse_raw_items`/`find_next_page`, `none` modelling a
raised ParsingException), the fetch layer (page bodies per start index and
per cited-by URL), title extraction, and the PDF-enrichment oracles. -/
structure ScrapeEnv where
  build_url : Nat → String
  result_exists : String → Bool
  page_html : Nat → Option String
  parse_results : String → Option (List SearchResult)
  parse_raw_items : String → Option (List String)
  find_next_page : String → Option String
  add_result : SearchResult → Nat
  extract_title : String → String
  cited_html : String → Option String
  cited_parse : String → Option (List SearchResult)
  download_direct_ok : String → Bool
  pdf_link_from_doi : String → Option String
  download_doi_ok : String → Bool

/-- `extract_cited_title` (fetcher.py lines 452-465): no fetch when the
cited-by URL is falsy; otherwise one fetch of that URL and a title (or
"Unknown Title"), both folded into the oracle. -/
def extract_cited_title (env : ScrapeEnv) (url? : Option String) :
    List ScrapeEvent × Option String :=
  match url? with
  | none => ([], none)
  | some url =>
    if url = "" then ([], none)
    else ([ScrapeEvent.cited_title_fetch url], some (env.extract_title url))

/-- `re.sub(r'[\\/*?:"<>|]', "", title)` (fetcher.py lines 613, 628). -/
def safe_title (t : String) : String :=
  String.mk (t.toList.filter (fun c => c ∉ ['\\', '/', '*', '?', ':', '"', '<', '>', '|']))

/-- The per-result PDF enrichment of `scrape` (fetcher.py lines 608-641):
try the parser-provided pdf_url, then a DOI-derived link; a found DOI link
overwrites pdf_url; a successful download records pdf_path.  A failed
enrichment leaves the optional fields as they were. -/
def enrich (env : ScrapeEnv) (pdf_dir : String) (download_pdfs : Bool)
    (r : SearchResult) : SearchResult :=
  if download_pdfs then
    let title_part := safe_title r.title
    let year_str := match r.year with | some y => toString y | none => "unknown"
    let direct :=
      match r.pdf_url with
      | some u =>
        if env.download_direct_ok u then
          some (pdf_dir ++ "/" ++ title_part ++ "_" ++ year_str ++ "_direct.pdf")
        else none
      | none => none
    match direct with
    | some path => { r with pdf_path := some path }
    | none =>
      match r.doi with
      | some d =>
        match env.pdf_link_from_doi d with
        | some u2 =>
          let r := { r with pdf_url := some u2 }
          if env.download_doi_ok u2 then
            let path := pdf_dir ++ "/" ++ title_part ++ "_" ++ year_str ++ "_doi.pdf"
            { r with pdf_path := some path }
          else r
        | none => r
      | none => r
  else r

/-- `fetch_cited_by_page` (fetcher.py lines 467-488), with the task-list
gather of the caller (lines 662-670) sequentialised into direct recursion:
same call tree, same events.  Returns the events of the whole expansion
rooted at `url`. -/
def fetch_cited_by_page (env : ScrapeEnv) (url : String) (depth max_depth : Nat) :
    List ScrapeEvent :=
  if _h0 : depth > max_depth then []
  else
    ScrapeEvent.expansion_fetch url depth ::
    (match env.cited_html url with
     | none => []
     | some html =>
       match env.cited_parse html with
       | none => []
       | some results =>
         results.flatMap (fun r =>
           let et := extract_cited_title env r.cited_by_url
           et.1 ++ [ScrapeEvent.graph_add r.title (some url) r.cited_by_url et.2 none]
           ++ (match r.cited_by_url with
               | some cu =>
                 if h1 : cu ≠ "" ∧ depth + 1 ≤ max_depth then
                   fetch_cited_by_page env cu (depth + 1) max_depth
                 else []
               | none => [])))
termination_by max_depth + 1 - depth
decreasing_by simp_wf; omega

/-- The body of `for result_data in results_on_page` (fetcher.py lines
607-660): enrich, insert, and when the insert reports a db id, fetch the
cited title, register the citation with the graph sink, and (only when the
result carries a citation link and `max_depth > 0`) queue a depth-1
expansion task.  Returns the enriched result, its events, and the queued
citation-task URLs. -/
def process_result (env : ScrapeEnv) (pdf_dir : String) (download_pdfs : Bool)
    (max_depth : Nat) (r : SearchResult) :
    SearchResult × List ScrapeEvent × List String :=
  let r := enrich env pdf_dir download_pdfs r
  let db_id := env.add_result r
  if db_id ≠ 0 then
    let et := extract_cited_title env r.cited_by_url
    let evs := ScrapeEvent.insert r :: et.1
      ++ [ScrapeEvent.graph_add r.title r.article_url r.cited_by_url et.2 r.doi]
    match r.cited_by_url with
    | some cu =>
      if cu ≠ "" ∧ max_depth > 0 then (r, evs, [cu]) else (r, evs, [])
    | none => (r, evs, [])
  else (r, [ScrapeEvent.insert r], [])

/-- The whole per-page result loop: every parsed result of the page is
processed, regardless of how many results are still needed. -/
def process_results (env : ScrapeEnv) (pdf_dir : String) (download_pdfs : Bool)
    (max_depth : Nat) :
    List SearchResult → List SearchResult × List ScrapeEvent × List String
  | [] => ([], [], [])
  | r :: rs =>
    let pr := process_result env pdf_dir download_pdfs max_depth r
    let rest := process_results env pdf_dir download_pdfs max_depth rs
    (pr.1 :: rest.1, pr.2.1 ++ rest.2.1, pr.2.2 ++ rest.2.2)

/-- The `while len(all_results) < num_results` loop of `scrape` (fetcher.py
lines 565-707).  `fuel` bounds the number of iterations (the embedding's
termination token; every claim holds for every fuel). -/
def scrape_loop (env : ScrapeEnv) (pdf_dir : String) (download_pdfs : Bool)
    (num_results max_depth : Nat) :
    Nat → Nat → List SearchResult → List ScrapeEvent →
    List SearchResult × List ScrapeEvent
  | 0, _, all_results, trace => (all_results, trace)
  | fuel + 1, start_index, all_results, trace =>
    if all_results.length ≥ num_results then (all_results, trace)
    else
      let url := env.build_url start_index
      if env.result_exists url then
        scrape_loop env pdf_dir download_pdfs num_results max_depth fuel
          (start_index + 10) all_results trace
      else
        let trace := trace ++ [ScrapeEvent.page_fetch start_index]
        match env.page_html start_index with
        | none =>
          scrape_loop env pdf_dir download_pdfs num_results max_depth fuel
            (start_index + 10) all_results trace
        | some html =>
          match env.parse_results html, env.parse_raw_items html with
          | some parsed, some raws =>
            let min_len := min parsed.length raws.length
            let results_on_page := parsed.take min_len
            if results_on_page = [] then (all_results, trace)
            else
              let proc := process_results env pdf_dir download_pdfs max_depth results_on_page
              let trace := trace ++ proc.2.1
                ++ proc.2.2.flatMap (fun cu => fetch_cited_by_page env cu 1 max_depth)
              let all_results := all_results ++ proc.1
              if all_results.length ≥ num_results then (all_results, trace)
              else
                match env.find_next_page html with
                | some _ =>
                  scrape_loop env pdf_dir download_pdfs num_results max_depth fuel
                    (start_index + 10) all_results trace
                | none => (all_results, trace)
          | _, _ =>
            if all_results.length ≥ num_results then (all_results, trace)
            else
              match env.find_next_page html with
              | some _ =>
                scrape_loop env pdf_dir download_pdfs num_results max_depth fuel
                  (start_index + 10) all_results trace
              | none => (all_results, trace)

/-- `scrape` (fetcher.py lines 513-709): run the paginated loop from start
index 0 and return `all_results[:num_results]`, alongside the full event
trace. -/
def scrape (env : ScrapeEnv) (pdf_dir : String) (download_pdfs : Bool)
    (num_results max_depth fuel : Nat) : List SearchResult × List ScrapeEvent :=
  let out := scrape_loop env pdf_dir download_pdfs num_results max_depth fuel 0 [] []
  (out.1.take num_results, out.2)

/-! ### Claim C2: the result cap does not limit persistence/graphing -/

def r1 : SearchResult :=
  { title := "A", article_url := some "u1", cited_by_url := none, doi := none
    pdf_url := none, pdf_path := none, year := none }

def r2 : SearchResult :=
  { title := "B", article_url := some "u2", cited_by_url := none, doi := none
    pdf_url := none, pdf_path := none, year := none }

def c2_env : ScrapeEnv :=
  { build_url := fun i => "q" ++ toString i
    result_exists := fun _ => false
    page_html := fun i => if i = 0 then some "H" else none
    parse_results := fun h => if h = "H" then some [r1, r2] else none
    parse_raw_items := fun h => if h = "H" then some ["x", "y"] else none
    find_next_page := fun _ => none
    add_result := fun _ => 1
    extract_title := fun _ => "T"
    cited_html := fun _ => none
    cited_parse := fun _ => none
    download_direct_ok := fun _ => false
    pdf_link_from_doi := fun _ => none
    download_doi_ok := fun _ => false }

/-- C2 (counterexample): with `num_results = 1` and a page parsing to two
fresh results, the crawl returns only the first result, yet the second —
which was not needed to reach the requested count — is still inserted into
Storage and registered with the GraphSink. -/
theorem excess_results_persisted :
    (scrape c2_env "pdfs" false 1 0 5).1 = [r1]
    ∧ r2 ∉ (scrape c2_env "pdfs" false 1 0 5).1
    ∧ ScrapeEvent.insert r2 ∈ (scrape c2_env "pdfs" false 1 0 5).2
    ∧ ScrapeEvent.graph_add "B" (some "u2") none none none
        ∈ (scrape c2_env "pdfs" false 1 0 5).2 := by
  decide

/-- C2 (amended): the crawl returns at most `num_results` results, but the
per-page loop persists and graphs every parsed result of each processed
page — including results beyond the requested count; only the returned
list is truncated. -/
theorem scrape_caps_return_but_persists_whole_page (env : ScrapeEnv)
    (pdf_dir : String) (dl : Bool) (num_results max_depth fuel : Nat) :
    (scrape env pdf_dir dl num_results max_depth fuel).1.length ≤ num_results
    ∧ ∀ (results : List SearchResult) (r : SearchResult), r ∈ results →
        ScrapeEvent.insert (enrich env pdf_dir dl r)
          ∈ (process_results env pdf_dir dl max_depth results).2.1 := by
  constructor
  · unfold scrape
    dsimp only
    rw [List.length_take]
    omega
  · intro results r hr
    induction results with
    | nil => cases hr
    | cons a rs ih =>
      rcases List.mem_cons.mp hr with rfl | hr'
      · have hhead : ScrapeEvent.insert (enrich env pdf_dir dl r)
            ∈ (process_result env pdf_dir dl max_depth r).2.1 := by
          unfold process_result
          dsimp only
          split
          · split
            · split <;> exact List.mem_cons_self _ _
            · exact List.mem_cons_self _ _
          · exact List.mem_cons_self _ _
        simp only [process_results]
        exact List.mem_append.mpr (Or.inl hhead)
      · simp only [process_results]
        exact List.mem_append.mpr (Or.inr (ih hr'))

/-- Witness for the amended C2 at the concrete two-result page. -/
theorem scrape_caps_return_but_persists_whole_page_witness :
    (scrape c2_env "pdfs" false 1 0 5).1.length ≤ 1
    ∧ ScrapeEvent.insert (enrich c2_env "pdfs" false r2)
        ∈ (process_results c2_env "pdfs" false 0 [r1, r2]).2.1 := by
  refine ⟨(scrape_caps_return_but_persists_whole_page c2_env "pdfs" false 1 0 5).1, ?_⟩
  exact (scrape_caps_return_but_persists_whole_page c2_env "pdfs" false 1 0 5).2
    [r1, r2] r2 (by decide)

/-! ### Claim C9: maxDepth = 0 issues no citation-expansion fetch -/

theorem fetch_cited_depth1_zero (env : ScrapeEnv) (cu : String) :
    fetch_cited_by_page env cu 1 0 = [] := by
  unfold fetch_cited_by_page
  simp

theorem process_result_no_expansion (env : ScrapeEnv) (pdf_dir : String)
    (dl : Bool) (md : Nat) (r : SearchResult) :
    ∀ e ∈ (process_result env pdf_dir dl md r).2.1, e.is_expansion = false := by
  intro e he
  unfold process_result extract_cited_title at he
  dsimp only at he
  repeat' split at he
  all_goals
    simp only [List.mem_cons, List.mem_append, List.mem_singleton,
      List.not_mem_nil, or_false, false_or] at he
  all_goals repeat' rcases he with he | he
  all_goals rfl

theorem process_results_no_expansion (env : ScrapeEnv) (pdf_dir : String)
    (dl : Bool) (md : Nat) :
    ∀ (results : List SearchResult),
      ∀ e ∈ (process_results env pdf_dir dl md results).2.1,
        e.is_expansion = false := by
  intro results
  induction results with
  | nil => intro e he; simp [process_results] at he
  | cons a rs ih =>
    intro e he
    simp only [process_results] at he
    rcases List.mem_append.mp he with h | h
    · exact process_result_no_expansion env pdf_dir dl md a e h
    · exact ih e h

theorem scrape_loop_no_expansion (env : ScrapeEnv) (pdf_dir : String)
    (dl : Bool) (num_results : Nat) :
    ∀ (fuel si : Nat) (all : List SearchResult) (trace : List ScrapeEvent),
      (∀ e ∈ trace, e.is_expansion = false) →
      ∀ e ∈ (scrape_loop env pdf_dir dl num_results 0 fuel si all trace).2,
        e.is_expansion = false := by
  intro fuel
  induction fuel with
  | zero =>
    intro si all trace htrace e he
    exact htrace e (by simpa [scrape_loop] using he)
  | succ n ih =>
    intro si all trace htrace e he
    simp only [scrape_loop] at he
    split at he
    · exact htrace e he
    · split at he
      · exact ih _ _ _ htrace e he
      · have htrace2 : ∀ e' ∈ trace ++ [ScrapeEvent.page_fetch si],
            ScrapeEvent.is_expansion e' = false := by
          intro e' he'
          rcases List.mem_append.mp he' with h | h
          · exact htrace e' h
          · simp only [List.mem_singleton] at h
            subst h
            rfl
        cases hh : env.page_html si with
        | none =>
          rw [hh] at he
          exact ih _ _ _ htrace2 e he
        | some html =>
          rw [hh] at he
          dsimp only at he
          cases hp : env.parse_results html with
          | none =>
            rw [hp] at he
            dsimp only at he
            cases hfn : env.find_next_page html with
            | some nxt =>
              rw [hfn] at he
              exact ih _ _ _ htrace2 e he
            | none =>
              rw [hfn] at he
              exact htrace2 e he
          | some parsed =>
            rw [hp] at he
            cases hq : env.parse_raw_items html with
            | none =>
              rw [hq] at he
              dsimp only at he
              cases hfn : env.find_next_page html with
              | some nxt =>
                rw [hfn] at he
                exact ih _ _ _ htrace2 e he
              | none =>
                rw [hfn] at he
                exact htrace2 e he
            | some raws =>
              rw [hq] at he
              dsimp only at he
              by_cases hres : parsed.take (min parsed.length raws.length) = []
              · rw [if_pos hres] at he
                exact htrace2 e he
              · rw [if_neg hres] at he
                have hflat : (process_results env pdf_dir dl 0
                    (parsed.take (min parsed.length raws.length))).2.2.flatMap
                    (fun cu => fetch_cited_by_page env cu 1 0) = [] := by
                  simp [fetch_cited_depth1_zero]
                rw [hflat] at he
                have htrace3 : ∀ e' ∈ (trace ++ [ScrapeEvent.page_fetch si])
                    ++ (process_results env pdf_dir dl 0
                        (parsed.take (min parsed.length raws.length))).2.1 ++ [],
                    ScrapeEvent.is_expansion e' = false := by
                  intro e' he'
                  rcases List.mem_append.mp he' with h | h
                  · rcases List.mem_append.mp h with h2 | h2
                    · exact htrace2 e' h2
                    · exact process_results_no_expansion env pdf_dir dl 0 _ e' h2
                  · cases h
                by_cases hlen : (all ++ (process_results env pdf_dir dl 0
                    (parsed.take (min parsed.length raws.length))).1).length ≥ num_results
                · rw [if_pos hlen] at he
                  exact htrace3 e he
                · rw [if_neg hlen] at he
                  cases hfn : env.find_next_page html with
                  | some nxt =>
                    rw [hfn] at he
                    exact ih _ _ _ htrace3 e he
                  | none =>
                    rw [hfn] at he
                    exact htrace3 e he

/-- C9 (confirmed): with `maxDepth = 0` the crawl never issues a
citation-expansion fetch (`fetch_cited_by_page`), regardless of how many
parsed results carry a cited-by link. -/
theorem depth_zero_no_expansion (env : ScrapeEnv) (pdf_dir : String) (dl : Bool)
    (num_results fuel : Nat) :
    ∀ e ∈ (scrape env pdf_dir dl num_results 0 fuel).2, e.is_expansion = false := by
  intro e he
  unfold scrape at he
  exact scrape_loop_no_expansion env pdf_dir dl num_results fuel 0 [] []
    (by intro e' he'; cases he') e he

def r3 : SearchResult :=
  { title := "C", article_url := some "u3", cited_by_url := some "cb3", doi := none
    pdf_url := none, pdf_path := none, year := none }

def c9_env : ScrapeEnv :=
  { c2_env with
    parse_results := fun h => if h = "H" then some [r3] else none
    parse_raw_items := fun h => if h = "H" then some ["x"] else none }

/-- Witness for C9 at a concrete input: a crawl whose single result carries
a cited-by link; its trace holds the page fetch, the insert, the
cited-title fetch and the graph registration — and the theorem applies to
each of them. -/
theorem depth_zero_no_expansion_witness :
    (ScrapeEvent.cited_title_fetch "cb3" ∈ (scrape c9_env "pdfs" false 5 0 5).2
      ∧ (ScrapeEvent.cited_title_fetch "cb3").is_expansion = false)
    ∧ ∀ u d, ScrapeEvent.expansion_fetch u d ∉ (scrape c9_env "pdfs" false 5 0 5).2 := by
  constructor
  · exact ⟨by decide, depth_zero_no_expansion c9_env "pdfs" false 5 5
      (ScrapeEvent.cited_title_fetch "cb3") (by decide)⟩
  · intro u d hmem
    have := depth_zero_no_expansion c9_env "pdfs" false 5 5
      (ScrapeEvent.expansion_fetch u d) hmem
    simp [ScrapeEvent.is_expansion] at this

end GScholar
